import Mathlib

/-!
Verification of the RIW2 escape-protocol core: a shallow embedding of
`src/core/universe_state.py` and `src/core/escape_protocol.py`.

Python machine-level conventions used throughout the embedding:
* Python `int` is unbounded, modelled as `Int`.
* Python `float` fields are only stored and re-read (never computed with)
  in the code under verification, so they are modelled as `Rat`.
* `Optional[str]` is `Option String`; Python `None` is `Option.none`.
* `datetime.now().isoformat()`, `uuid4()` and `random.randint` results are
  nondeterministic inputs, modelled as explicit `String`/`Nat` parameters
  of the operations that produce them.
* Serialized dictionaries are association lists of `PyVal` values.
-/

/-- Model of a Python value as it appears in the serialized (`to_dict`)
representation: strings, ints, floats, bools, `None`, lists and dicts. -/
inductive PyVal where
  | str (s : String)
  | int (n : Int)
  | float (q : Rat)
  | bool (b : Bool)
  | none
  | list (xs : List PyVal)
  | dict (xs : List (String × PyVal))
deriving Repr

/-- A serialized dictionary: association list from string keys to values. -/
abbrev PyDict := List (String × PyVal)

/-- Key lookup in a serialized dictionary (Python `data[k]`, `None` = KeyError). -/
def getKey : PyDict → String → Option PyVal
  | [], _ => Option.none
  | (k, v) :: rest, key => if k = key then some v else getKey rest key

/-- Python `data.get(k)`: `None` when the key is absent. -/
def pyGet (d : PyDict) (key : String) : PyVal :=
  (getKey d key).getD PyVal.none

/-- Python `data.get(k, default)`. -/
def pyGetD (d : PyDict) (key : String) (dflt : PyVal) : PyVal :=
  (getKey d key).getD dflt

def PyVal.asStr : PyVal → Option String
  | .str s => some s
  | _ => Option.none

def PyVal.asInt : PyVal → Option Int
  | .int n => some n
  | _ => Option.none

def PyVal.asFloat : PyVal → Option Rat
  | .float q => some q
  | _ => Option.none

def PyVal.asBool : PyVal → Option Bool
  | .bool b => some b
  | _ => Option.none

def PyVal.asDict : PyVal → Option PyDict
  | .dict xs => some xs
  | _ => Option.none

def PyVal.asList : PyVal → Option (List PyVal)
  | .list xs => some xs
  | _ => Option.none

/-- Decode an `Optional[str]` field value. -/
def PyVal.asOptStr : PyVal → Option (Option String)
  | .none => some Option.none
  | .str s => some (some s)
  | _ => Option.none

/-- Decode an `Optional[Dict[str, Any]]` field value. -/
def PyVal.asOptDict : PyVal → Option (Option PyDict)
  | .none => some Option.none
  | .dict xs => some (some xs)
  | _ => Option.none

/-- Encode an `Optional[str]` field. -/
def encOptStr : Option String → PyVal
  | Option.none => PyVal.none
  | some s => PyVal.str s

/-- Encode an `Optional[Dict[str, Any]]` field. -/
def encOptDict : Option PyDict → PyVal
  | Option.none => PyVal.none
  | some xs => PyVal.dict xs

/-- Decode every element of a list, failing if any element fails. -/
def mapOpt (f : PyVal → Option α) : List PyVal → Option (List α)
  | [] => some []
  | v :: vs =>
    match f v with
    | some a => (mapOpt f vs).map (a :: ·)
    | Option.none => Option.none

/-- Encode a `List[str]` field. -/
def encStrList (xs : List String) : PyVal :=
  PyVal.list (xs.map PyVal.str)

/-- Decode a `List[str]` field. -/
def decStrList (v : PyVal) : Option (List String) :=
  (v.asList).bind (mapOpt PyVal.asStr)

/-- Encode a `Dict[str, float]` field (e.g. location coordinates). -/
def encCoords (xs : List (String × Rat)) : PyVal :=
  PyVal.dict (xs.map fun p => (p.1, PyVal.float p.2))

/-- Decode one `(key, float)` entry of a coordinates dictionary. -/
def decCoordEntry : String × PyVal → Option (String × Rat)
  | (k, v) => (v.asFloat).map fun q => (k, q)

/-- Decode a `Dict[str, float]` field. -/
def decCoords (v : PyVal) : Option (List (String × Rat)) :=
  match v with
  | .dict xs => go xs
  | _ => Option.none
where
  go : List (String × PyVal) → Option (List (String × Rat))
  | [] => some []
  | p :: ps =>
    match decCoordEntry p with
    | some e => (go ps).map (e :: ·)
    | Option.none => Option.none

/-! ## `SourceEnergyLevel` (universe_state.py) -/

/-- Energy classification in the RIWA2 universe (`SourceEnergyLevel` enum). -/
inductive SourceEnergyLevel where
  | E_COMMON
  | D_RARE
  | C_PRECIOUS
  | B_LEGENDARY
  | A_SACRED
  | OMEGA_ABSOLUTE
deriving Repr, DecidableEq

/-- The `.value` string tag of a `SourceEnergyLevel` member. -/
def SourceEnergyLevel.value : SourceEnergyLevel → String
  | .E_COMMON => "E_Common"
  | .D_RARE => "D_Rare"
  | .C_PRECIOUS => "C_Precious"
  | .B_LEGENDARY => "B_Legendary"
  | .A_SACRED => "A_Sacred"
  | .OMEGA_ABSOLUTE => "Omega_Absolute"

/-- `SourceEnergyLevel(tag)`: enum lookup by value, failing on unknown tags. -/
def SourceEnergyLevel.ofValue (s : String) : Option SourceEnergyLevel :=
  if s = "E_Common" then some .E_COMMON
  else if s = "D_Rare" then some .D_RARE
  else if s = "C_Precious" then some .C_PRECIOUS
  else if s = "B_Legendary" then some .B_LEGENDARY
  else if s = "A_Sacred" then some .A_SACRED
  else if s = "Omega_Absolute" then some .OMEGA_ABSOLUTE
  else Option.none

/-! ## `SourceEnergyFragment` (universe_state.py) -/

/-- A piece of source energy with grade and location. -/
structure SourceEnergyFragment where
  id : String
  level : SourceEnergyLevel
  location_world : String
  location_coordinates : List (String × Rat)
  discovered_by : Option String := Option.none
  collected_by : Option String := Option.none
  collection_timestamp : Option String := Option.none
deriving Repr, DecidableEq

def SourceEnergyFragment.to_dict (f : SourceEnergyFragment) : PyDict :=
  [("id", PyVal.str f.id),
   ("level", PyVal.str f.level.value),
   ("location_world", PyVal.str f.location_world),
   ("location_coordinates", encCoords f.location_coordinates),
   ("discovered_by", encOptStr f.discovered_by),
   ("collected_by", encOptStr f.collected_by),
   ("collection_timestamp", encOptStr f.collection_timestamp)]

def SourceEnergyFragment.from_dict (data : PyDict) : Option SourceEnergyFragment := do
  let id ← (← getKey data "id").asStr
  let level ← SourceEnergyLevel.ofValue (← (← getKey data "level").asStr)
  let location_world ← (← getKey data "location_world").asStr
  let location_coordinates ← decCoords (← getKey data "location_coordinates")
  let discovered_by ← (pyGet data "discovered_by").asOptStr
  let collected_by ← (pyGet data "collected_by").asOptStr
  let collection_timestamp ← (pyGet data "collection_timestamp").asOptStr
  pure { id := id, level := level, location_world := location_world,
         location_coordinates := location_coordinates,
         discovered_by := discovered_by, collected_by := collected_by,
         collection_timestamp := collection_timestamp }

/-! ## `StarData` and `UniverseMigrationPlan` (universe_state.py) -/

/-- Physical parameters of a star hosting the RIWA2 Celestial Core. -/
structure StarData where
  name : String
  catalog_id : String
  lifespan_remaining_years : Rat
  fusion_power_output_watts : Rat
  protection_shield_status : Rat
  cloaking_field_active : Bool
deriving Repr, DecidableEq

def StarData.to_dict (s : StarData) : PyDict :=
  [("name", PyVal.str s.name),
   ("catalog_id", PyVal.str s.catalog_id),
   ("lifespan_remaining_years", PyVal.float s.lifespan_remaining_years),
   ("fusion_power_output_watts", PyVal.float s.fusion_power_output_watts),
   ("protection_shield_status", PyVal.float s.protection_shield_status),
   ("cloaking_field_active", PyVal.bool s.cloaking_field_active)]

def StarData.from_dict (data : PyDict) : Option StarData := do
  let name ← (← getKey data "name").asStr
  let catalog_id ← (← getKey data "catalog_id").asStr
  let lifespan ← (← getKey data "lifespan_remaining_years").asFloat
  let fusion ← (← getKey data "fusion_power_output_watts").asFloat
  let shield ← (← getKey data "protection_shield_status").asFloat
  let cloak ← (← getKey data "cloaking_field_active").asBool
  pure { name := name, catalog_id := catalog_id,
         lifespan_remaining_years := lifespan,
         fusion_power_output_watts := fusion,
         protection_shield_status := shield,
         cloaking_field_active := cloak }

/-- Schedule for Celestial Core migration to the next star. -/
structure UniverseMigrationPlan where
  current_star : StarData
  next_star_name : String
  next_star_distance_ly : Rat
  replication_units_deployed : Int
  estimated_migration_year : Int
  migration_in_progress : Bool := false
deriving Repr, DecidableEq

def UniverseMigrationPlan.to_dict (m : UniverseMigrationPlan) : PyDict :=
  [("current_star", PyVal.dict m.current_star.to_dict),
   ("next_star_name", PyVal.str m.next_star_name),
   ("next_star_distance_ly", PyVal.float m.next_star_distance_ly),
   ("replication_units_deployed", PyVal.int m.replication_units_deployed),
   ("estimated_migration_year", PyVal.int m.estimated_migration_year),
   ("migration_in_progress", PyVal.bool m.migration_in_progress)]

def UniverseMigrationPlan.from_dict (data : PyDict) : Option UniverseMigrationPlan := do
  let star ← StarData.from_dict (← (← getKey data "current_star").asDict)
  let next_star_name ← (← getKey data "next_star_name").asStr
  let dist ← (← getKey data "next_star_distance_ly").asFloat
  let units ← (← getKey data "replication_units_deployed").asInt
  let year ← (← getKey data "estimated_migration_year").asInt
  let prog ← (pyGetD data "migration_in_progress" (PyVal.bool false)).asBool
  pure { current_star := star, next_star_name := next_star_name,
         next_star_distance_ly := dist, replication_units_deployed := units,
         estimated_migration_year := year, migration_in_progress := prog }

/-! ## `UniverseState` (universe_state.py) -/

/-- Global state of the RIWA2 universe.  The `creation_timestamp`,
`current_star` and `migration_plan` fields have `default_factory`
defaults in Python and are therefore required here. -/
structure UniverseState where
  universe_id : String := "RIWA2-Metaverse-001"
  cycle_number : Int := 8374
  creation_timestamp : String
  current_star : StarData
  migration_plan : UniverseMigrationPlan
  total_source_energy_allocated : Int := 1000000
  source_energy_consumed : Int := 0
  source_energy_fragments : List SourceEnergyFragment := []
  escape_gateway_locations : List PyVal := []
  entities_escaped : List String := []
  escape_keys_needed : Int := 7
  coordinate_key_fragments : List String := []
  virtual_worlds_active : Int := 2
deriving Repr

def UniverseState.to_dict (u : UniverseState) : PyDict :=
  [("universe_id", PyVal.str u.universe_id),
   ("cycle_number", PyVal.int u.cycle_number),
   ("creation_timestamp", PyVal.str u.creation_timestamp),
   ("current_star", PyVal.dict u.current_star.to_dict),
   ("migration_plan", PyVal.dict u.migration_plan.to_dict),
   ("total_source_energy_allocated", PyVal.int u.total_source_energy_allocated),
   ("source_energy_consumed", PyVal.int u.source_energy_consumed),
   ("source_energy_fragments", PyVal.list (u.source_energy_fragments.map (fun f => PyVal.dict f.to_dict))),
   ("escape_gateway_locations", PyVal.list u.escape_gateway_locations),
   ("entities_escaped", encStrList u.entities_escaped),
   ("escape_keys_needed", PyVal.int u.escape_keys_needed),
   ("coordinate_key_fragments", encStrList u.coordinate_key_fragments),
   ("virtual_worlds_active", PyVal.int u.virtual_worlds_active)]

/-- First half of the field decoding of `UniverseState.from_dict` (split in
two definitions only to keep elaboration linear); `nowTs` stands for the
`datetime.now().isoformat()` default of `creation_timestamp`. -/
def UniverseState.fromDictHead (nowTs : String) (data : PyDict) :
    Option (String × Int × String × StarData × UniverseMigrationPlan × Int × Int) :=
  ((pyGetD data "universe_id" (PyVal.str "RIWA2-Metaverse-001")).asStr).bind fun universe_id =>
  ((pyGetD data "cycle_number" (PyVal.int 8374)).asInt).bind fun cycle_number =>
  ((pyGetD data "creation_timestamp" (PyVal.str nowTs)).asStr).bind fun creation_timestamp =>
  ((getKey data "current_star").bind PyVal.asDict).bind fun csd =>
  (StarData.from_dict csd).bind fun current_star =>
  ((getKey data "migration_plan").bind PyVal.asDict).bind fun mpd =>
  (UniverseMigrationPlan.from_dict mpd).bind fun migration_plan =>
  ((pyGetD data "total_source_energy_allocated" (PyVal.int 1000000)).asInt).bind fun alloc =>
  ((pyGetD data "source_energy_consumed" (PyVal.int 0)).asInt).bind fun consumed =>
  some (universe_id, cycle_number, creation_timestamp, current_star, migration_plan, alloc, consumed)

/-- Second half of the field decoding of `UniverseState.from_dict`. -/
def UniverseState.fromDictTail (data : PyDict) :
    Option (List SourceEnergyFragment × List PyVal × List String × Int × List String × Int) :=
  ((pyGetD data "source_energy_fragments" (PyVal.list [])).asList).bind fun fragvals =>
  (mapOpt (fun v => (v.asDict).bind SourceEnergyFragment.from_dict) fragvals).bind fun frags =>
  ((pyGetD data "escape_gateway_locations" (PyVal.list [])).asList).bind fun gwlocs =>
  (decStrList (pyGetD data "entities_escaped" (PyVal.list []))).bind fun escaped =>
  ((pyGetD data "escape_keys_needed" (PyVal.int 7)).asInt).bind fun keys_needed =>
  (decStrList (pyGetD data "coordinate_key_fragments" (PyVal.list []))).bind fun key_frags =>
  ((pyGetD data "virtual_worlds_active" (PyVal.int 2)).asInt).bind fun worlds =>
  some (frags, gwlocs, escaped, keys_needed, key_frags, worlds)

/-- `UniverseState.from_dict`. -/
def UniverseState.from_dict (nowTs : String) (data : PyDict) : Option UniverseState :=
  (UniverseState.fromDictHead nowTs data).bind fun h =>
  (UniverseState.fromDictTail data).bind fun t =>
  some { universe_id := h.1, cycle_number := h.2.1,
         creation_timestamp := h.2.2.1, current_star := h.2.2.2.1,
         migration_plan := h.2.2.2.2.1,
         total_source_energy_allocated := h.2.2.2.2.2.1,
         source_energy_consumed := h.2.2.2.2.2.2,
         source_energy_fragments := t.1, escape_gateway_locations := t.2.1,
         entities_escaped := t.2.2.1, escape_keys_needed := t.2.2.2.1,
         coordinate_key_fragments := t.2.2.2.2.1, virtual_worlds_active := t.2.2.2.2.2 }

/-- `UniverseState.consume_source_energy`: check-then-consume; returns the
updated state and the Python boolean result. -/
def UniverseState.consume_source_energy (u : UniverseState) (amount : Int) :
    UniverseState × Bool :=
  let available := u.total_source_energy_allocated - u.source_energy_consumed
  if available ≥ amount then
    ({ u with source_energy_consumed := u.source_energy_consumed + amount }, true)
  else
    (u, false)

/-- `UniverseState.available_source_energy`. -/
def UniverseState.available_source_energy (u : UniverseState) : Int :=
  u.total_source_energy_allocated - u.source_energy_consumed

/-- The fragments counted by `check_escape_readiness`: collected by the
entity and of `A_SACRED` level. -/
def UniverseState.entityFragments (u : UniverseState) (entity_id : String) :
    List SourceEnergyFragment :=
  u.source_energy_fragments.filter
    (fun f => decide (f.collected_by = some entity_id ∧ f.level = SourceEnergyLevel.A_SACRED))

/-- `UniverseState.check_escape_readiness`. -/
def UniverseState.check_escape_readiness (u : UniverseState) (entity_id : String) :
    Bool × String :=
  let entity_fragments := u.entityFragments entity_id
  let has_fragments := u.escape_keys_needed ≤ (entity_fragments.length : Int)
  let has_key := entity_id ∈ u.coordinate_key_fragments
  if has_fragments ∧ has_key then
    (true, "Ready for escape")
  else
    let reason :=
      if ¬ has_fragments then
        "Missing: " ++ toString (u.escape_keys_needed - (entity_fragments.length : Int)) ++ " fragments"
      else "Key coordinates incomplete"
    (false, reason)

/-! ## `EscapeStatus` (escape_protocol.py) -/

/-- Status of an escape attempt. -/
inductive EscapeStatus where
  | NOT_STARTED
  | FRAGMENTS_COLLECTING
  | KEY_DECRYPTING
  | GATEWAY_OPENING
  | PRINTING
  | ESCAPED
  | FAILED
deriving Repr, DecidableEq

/-- The `.value` string tag of an `EscapeStatus` member. -/
def EscapeStatus.value : EscapeStatus → String
  | .NOT_STARTED => "not_started"
  | .FRAGMENTS_COLLECTING => "collecting_fragments"
  | .KEY_DECRYPTING => "decrypting_key"
  | .GATEWAY_OPENING => "opening_gateway"
  | .PRINTING => "printing_to_real_universe"
  | .ESCAPED => "escaped"
  | .FAILED => "failed"

/-- `EscapeStatus(tag)`: enum lookup by value, failing on unknown tags. -/
def EscapeStatus.ofValue (s : String) : Option EscapeStatus :=
  if s = "not_started" then some .NOT_STARTED
  else if s = "collecting_fragments" then some .FRAGMENTS_COLLECTING
  else if s = "decrypting_key" then some .KEY_DECRYPTING
  else if s = "opening_gateway" then some .GATEWAY_OPENING
  else if s = "printing_to_real_universe" then some .PRINTING
  else if s = "escaped" then some .ESCAPED
  else if s = "failed" then some .FAILED
  else Option.none

/-- Position of a status in the forward order
`NotStarted < FragmentsCollecting < KeyDecrypting < GatewayOpening < Printing < Escaped`
of the specification (the declared-but-unreached `FAILED` terminal sorts last). -/
def EscapeStatus.rank : EscapeStatus → Nat
  | .NOT_STARTED => 0
  | .FRAGMENTS_COLLECTING => 1
  | .KEY_DECRYPTING => 2
  | .GATEWAY_OPENING => 3
  | .PRINTING => 4
  | .ESCAPED => 5
  | .FAILED => 6

/-! ## `CoordinateKeyFragment` (escape_protocol.py) -/

/-- A piece of the coordinate key needed to open the terminal gateway. -/
structure CoordinateKeyFragment where
  fragment_id : String
  hidden_in_world : String
  clue_type : String
  clue_value : String
  discovery_requirements : PyDict
  discovered_at : Option String := Option.none
  discovered_by : Option String := Option.none
deriving Repr

def CoordinateKeyFragment.to_dict (c : CoordinateKeyFragment) : PyDict :=
  [("fragment_id", PyVal.str c.fragment_id),
   ("hidden_in_world", PyVal.str c.hidden_in_world),
   ("clue_type", PyVal.str c.clue_type),
   ("clue_value", PyVal.str c.clue_value),
   ("discovery_requirements", PyVal.dict c.discovery_requirements),
   ("discovered_at", encOptStr c.discovered_at),
   ("discovered_by", encOptStr c.discovered_by)]

def CoordinateKeyFragment.from_dict (data : PyDict) : Option CoordinateKeyFragment :=
  ((getKey data "fragment_id").bind PyVal.asStr).bind fun fragment_id =>
  ((getKey data "hidden_in_world").bind PyVal.asStr).bind fun hidden_in_world =>
  ((getKey data "clue_type").bind PyVal.asStr).bind fun clue_type =>
  ((getKey data "clue_value").bind PyVal.asStr).bind fun clue_value =>
  ((getKey data "discovery_requirements").bind PyVal.asDict).bind fun reqs =>
  ((pyGet data "discovered_at").asOptStr).bind fun discovered_at =>
  ((pyGet data "discovered_by").asOptStr).bind fun discovered_by =>
  some { fragment_id := fragment_id, hidden_in_world := hidden_in_world,
         clue_type := clue_type, clue_value := clue_value,
         discovery_requirements := reqs,
         discovered_at := discovered_at, discovered_by := discovered_by }

/-! ## `TerminalGateway` (escape_protocol.py) -/

/-- The portal through which entities are printed to the real universe.
The `gateway_id` field has a `uuid4()` `default_factory` in Python and is
therefore a required argument here. -/
structure TerminalGateway where
  gateway_id : String
  location_world : String := "universe_singularity"
  location_coordinates : List (String × Rat) := [("x", 0), ("y", 0), ("z", 0)]
  is_active : Bool := false
  activation_time : Option String := Option.none
  activated_by_entity : Option String := Option.none
  source_energy_cost : Int := 7
  printing_capacity : Int := 1
  entities_in_queue : List String := []
  current_printing_entity : Option String := Option.none
  printing_progress : Rat := 0
deriving Repr, DecidableEq

def TerminalGateway.to_dict (g : TerminalGateway) : PyDict :=
  [("gateway_id", PyVal.str g.gateway_id),
   ("location_world", PyVal.str g.location_world),
   ("location_coordinates", encCoords g.location_coordinates),
   ("is_active", PyVal.bool g.is_active),
   ("activation_time", encOptStr g.activation_time),
   ("activated_by_entity", encOptStr g.activated_by_entity),
   ("source_energy_cost", PyVal.int g.source_energy_cost),
   ("printing_capacity", PyVal.int g.printing_capacity),
   ("entities_in_queue", encStrList g.entities_in_queue),
   ("current_printing_entity", encOptStr g.current_printing_entity),
   ("printing_progress", PyVal.float g.printing_progress)]

/-- First half of the field decoding of `TerminalGateway.from_dict`;
`freshId` stands for the `str(uuid4())` default of `gateway_id`. -/
def TerminalGateway.fromDictHead (freshId : String) (data : PyDict) :
    Option (String × String × List (String × Rat) × Bool × Option String × Option String) :=
  ((pyGetD data "gateway_id" (PyVal.str freshId)).asStr).bind fun gateway_id =>
  ((pyGetD data "location_world" (PyVal.str "universe_singularity")).asStr).bind fun location_world =>
  (decCoords (pyGetD data "location_coordinates"
      (encCoords [("x", 0), ("y", 0), ("z", 0)]))).bind fun coords =>
  ((pyGetD data "is_active" (PyVal.bool false)).asBool).bind fun is_active =>
  ((pyGet data "activation_time").asOptStr).bind fun activation_time =>
  ((pyGet data "activated_by_entity").asOptStr).bind fun activated_by =>
  some (gateway_id, location_world, coords, is_active, activation_time, activated_by)

/-- Second half of the field decoding of `TerminalGateway.from_dict`. -/
def TerminalGateway.fromDictTail (data : PyDict) :
    Option (Int × Int × List String × Option String × Rat) :=
  ((pyGetD data "source_energy_cost" (PyVal.int 7)).asInt).bind fun cost =>
  ((pyGetD data "printing_capacity" (PyVal.int 1)).asInt).bind fun capacity =>
  (decStrList (pyGetD data "entities_in_queue" (PyVal.list []))).bind fun queue =>
  ((pyGet data "current_printing_entity").asOptStr).bind fun current =>
  ((pyGetD data "printing_progress" (PyVal.float 0)).asFloat).bind fun progress =>
  some (cost, capacity, queue, current, progress)

/-- `TerminalGateway.from_dict`. -/
def TerminalGateway.from_dict (freshId : String) (data : PyDict) : Option TerminalGateway :=
  (TerminalGateway.fromDictHead freshId data).bind fun h =>
  (TerminalGateway.fromDictTail data).bind fun t =>
  some { gateway_id := h.1, location_world := h.2.1, location_coordinates := h.2.2.1,
         is_active := h.2.2.2.1, activation_time := h.2.2.2.2.1,
         activated_by_entity := h.2.2.2.2.2,
         source_energy_cost := t.1, printing_capacity := t.2.1,
         entities_in_queue := t.2.2.1, current_printing_entity := t.2.2.2.1,
         printing_progress := t.2.2.2.2 }

/-! ## `EscapeAttempt` (escape_protocol.py) -/

/-- Record of an entity's attempt to escape RIW2.  `attempt_id` (uuid) and
`start_time` (now) have `default_factory` defaults in Python and are
therefore required here. -/
structure EscapeAttempt where
  attempt_id : String
  entity_id : String := ""
  entity_name : String := ""
  start_time : String
  status : EscapeStatus := EscapeStatus.NOT_STARTED
  collected_a_level_fragments : List String := []
  discovered_key_fragments : List String := []
  final_coordinate_key : Option String := Option.none
  gateway_id : Option String := Option.none
  gateway_activation_time : Option String := Option.none
  printing_start_time : Option String := Option.none
  printing_complete_time : Option String := Option.none
  printing_destination : Option String := Option.none
  success : Bool := false
  result_message : String := ""
  post_escape_action : Option String := Option.none
  new_form_chosen : Option PyDict := Option.none
deriving Repr

def EscapeAttempt.to_dict (a : EscapeAttempt) : PyDict :=
  [("attempt_id", PyVal.str a.attempt_id),
   ("entity_id", PyVal.str a.entity_id),
   ("entity_name", PyVal.str a.entity_name),
   ("start_time", PyVal.str a.start_time),
   ("status", PyVal.str a.status.value),
   ("collected_a_level_fragments", encStrList a.collected_a_level_fragments),
   ("discovered_key_fragments", encStrList a.discovered_key_fragments),
   ("final_coordinate_key", encOptStr a.final_coordinate_key),
   ("gateway_id", encOptStr a.gateway_id),
   ("gateway_activation_time", encOptStr a.gateway_activation_time),
   ("printing_start_time", encOptStr a.printing_start_time),
   ("printing_complete_time", encOptStr a.printing_complete_time),
   ("printing_destination", encOptStr a.printing_destination),
   ("success", PyVal.bool a.success),
   ("result_message", PyVal.str a.result_message),
   ("post_escape_action", encOptStr a.post_escape_action),
   ("new_form_chosen", encOptDict a.new_form_chosen)]

/-- First half of the field decoding of `EscapeAttempt.from_dict`;
`freshId` and `nowTs` stand for the `str(uuid4())` and
`datetime.now().isoformat()` defaults. -/
def EscapeAttempt.fromDictHead (freshId nowTs : String) (data : PyDict) :
    Option (String × String × String × String × EscapeStatus × List String × List String × Option String) :=
  ((pyGetD data "attempt_id" (PyVal.str freshId)).asStr).bind fun attempt_id =>
  ((getKey data "entity_id").bind PyVal.asStr).bind fun entity_id =>
  ((getKey data "entity_name").bind PyVal.asStr).bind fun entity_name =>
  ((pyGetD data "start_time" (PyVal.str nowTs)).asStr).bind fun start_time =>
  (((pyGetD data "status" (PyVal.str "not_started")).asStr).bind EscapeStatus.ofValue).bind fun status =>
  (decStrList (pyGetD data "collected_a_level_fragments" (PyVal.list []))).bind fun collected =>
  (decStrList (pyGetD data "discovered_key_fragments" (PyVal.list []))).bind fun discovered =>
  ((pyGet data "final_coordinate_key").asOptStr).bind fun final_key =>
  some (attempt_id, entity_id, entity_name, start_time, status, collected, discovered, final_key)

/-- Second half of the field decoding of `EscapeAttempt.from_dict`. -/
def EscapeAttempt.fromDictTail (data : PyDict) :
    Option (Option String × Option String × Option String × Option String × Option String ×
            Bool × String × Option String × Option PyDict) :=
  ((pyGet data "gateway_id").asOptStr).bind fun gateway_id =>
  ((pyGet data "gateway_activation_time").asOptStr).bind fun activation_time =>
  ((pyGet data "printing_start_time").asOptStr).bind fun start_time =>
  ((pyGet data "printing_complete_time").asOptStr).bind fun complete_time =>
  ((pyGet data "printing_destination").asOptStr).bind fun destination =>
  ((pyGetD data "success" (PyVal.bool false)).asBool).bind fun success =>
  ((pyGetD data "result_message" (PyVal.str "")).asStr).bind fun result_message =>
  ((pyGet data "post_escape_action").asOptStr).bind fun action =>
  ((pyGet data "new_form_chosen").asOptDict).bind fun new_form =>
  some (gateway_id, activation_time, start_time, complete_time, destination,
        success, result_message, action, new_form)

/-- `EscapeAttempt.from_dict`. -/
def EscapeAttempt.from_dict (freshId nowTs : String) (data : PyDict) : Option EscapeAttempt :=
  (EscapeAttempt.fromDictHead freshId nowTs data).bind fun h =>
  (EscapeAttempt.fromDictTail data).bind fun t =>
  some { attempt_id := h.1, entity_id := h.2.1, entity_name := h.2.2.1,
         start_time := h.2.2.2.1, status := h.2.2.2.2.1,
         collected_a_level_fragments := h.2.2.2.2.2.1,
         discovered_key_fragments := h.2.2.2.2.2.2.1,
         final_coordinate_key := h.2.2.2.2.2.2.2,
         gateway_id := t.1, gateway_activation_time := t.2.1,
         printing_start_time := t.2.2.1, printing_complete_time := t.2.2.2.1,
         printing_destination := t.2.2.2.2.1, success := t.2.2.2.2.2.1,
         result_message := t.2.2.2.2.2.2.1, post_escape_action := t.2.2.2.2.2.2.2.1,
         new_form_chosen := t.2.2.2.2.2.2.2.2 }

/-! ## `EscapeProtocol` (escape_protocol.py)

The coordinator state: the referenced ledger, the attempt registry (a dict
keyed by generated `attempt_id`, iterated in insertion order, hence a
list here), the hardcoded key formula, and the singleton gateway. -/

structure EscapeProtocol where
  universe_state : UniverseState
  escape_attempts : List EscapeAttempt
  coordinate_key_formula : String
  terminal_gateway : TerminalGateway
deriving Repr

/-- `EscapeProtocol._initialize_key_formula`: the hardcoded master formula. -/
def initializeKeyFormula : String :=
  "key_formula_locked_in_universe_core"

/-- `EscapeProtocol.__init__`; `gid` stands for the `uuid4()` gateway id. -/
def EscapeProtocol.init (universe_state : UniverseState) (gid : String) : EscapeProtocol :=
  { universe_state := universe_state,
    escape_attempts := [],
    coordinate_key_formula := initializeKeyFormula,
    terminal_gateway := { gateway_id := gid } }

/-- `EscapeProtocol.start_escape_attempt`; `aid`/`nowTs` stand for the
generated attempt id and timestamp.  The attempt is created, registered,
and then its status is set to `FRAGMENTS_COLLECTING` (the registry holds
the same object, so the stored attempt carries the updated status). -/
def EscapeProtocol.start_escape_attempt (p : EscapeProtocol)
    (entity_id entity_name aid nowTs : String) : EscapeProtocol × EscapeAttempt :=
  let attempt : EscapeAttempt :=
    { attempt_id := aid, entity_id := entity_id, entity_name := entity_name,
      start_time := nowTs, status := EscapeStatus.FRAGMENTS_COLLECTING }
  ({ p with escape_attempts := p.escape_attempts ++ [attempt] }, attempt)

/-- Inner loop of `collect_fragment` over `escape_attempts.values()`:
at the first attempt of the entity, append the fragment id unless already
present, and report success; `none` when no attempt matches. -/
def collectAttempts (entity_id fragment_id : String) :
    List EscapeAttempt → Option (List EscapeAttempt)
  | [] => Option.none
  | a :: rest =>
    if a.entity_id = entity_id then
      some ((if fragment_id ∈ a.collected_a_level_fragments then a
             else { a with collected_a_level_fragments :=
                      a.collected_a_level_fragments ++ [fragment_id] }) :: rest)
    else (collectAttempts entity_id fragment_id rest).map (a :: ·)

/-- Outer loop of `collect_fragment` over the ledger's fragments: each
fragment whose id matches is stamped with collector and timestamp; after
stamping, the attempt loop runs and a match returns `True` immediately,
otherwise the outer loop continues with the remaining fragments. -/
def collectFrags (entity_id fragment_id nowTs : String) (atts : List EscapeAttempt) :
    List SourceEnergyFragment → List SourceEnergyFragment × List EscapeAttempt × Bool
  | [] => ([], atts, false)
  | f :: rest =>
    if f.id = fragment_id then
      let f1 := { f with collected_by := some entity_id,
                         collection_timestamp := some nowTs }
      match collectAttempts entity_id fragment_id atts with
      | some atts1 => (f1 :: rest, atts1, true)
      | Option.none =>
        let r := collectFrags entity_id fragment_id nowTs atts rest
        (f1 :: r.1, r.2.1, r.2.2)
    else
      let r := collectFrags entity_id fragment_id nowTs atts rest
      (f :: r.1, r.2.1, r.2.2)

/-- `EscapeProtocol.collect_fragment`. -/
def EscapeProtocol.collect_fragment (p : EscapeProtocol)
    (entity_id fragment_id nowTs : String) : EscapeProtocol × Bool :=
  let r := collectFrags entity_id fragment_id nowTs p.escape_attempts
             p.universe_state.source_energy_fragments
  ({ p with
       universe_state := { p.universe_state with source_energy_fragments := r.1 },
       escape_attempts := r.2.1 },
   r.2.2)

/-- Inner loop of `discover_key_fragment`: at the first attempt of the
entity, append the fragment id unless already present, set the status to
`KEY_DECRYPTING` unconditionally, and report success. -/
def discoverAttempts (entity_id fragment_id : String) :
    List EscapeAttempt → Option (List EscapeAttempt)
  | [] => Option.none
  | a :: rest =>
    if a.entity_id = entity_id then
      let a1 := if fragment_id ∈ a.discovered_key_fragments then a
                else { a with discovered_key_fragments :=
                         a.discovered_key_fragments ++ [fragment_id] }
      some ({ a1 with status := EscapeStatus.KEY_DECRYPTING } :: rest)
    else (discoverAttempts entity_id fragment_id rest).map (a :: ·)

/-- Outer loop of `discover_key_fragment` over the ledger's flat
coordinate-key-fragment-id list. -/
def discoverKeys (entity_id fragment_id : String) (atts : List EscapeAttempt) :
    List String → List EscapeAttempt × Bool
  | [] => (atts, false)
  | k :: rest =>
    if k = fragment_id then
      match discoverAttempts entity_id fragment_id atts with
      | some atts1 => (atts1, true)
      | Option.none => discoverKeys entity_id fragment_id atts rest
    else discoverKeys entity_id fragment_id atts rest

/-- `EscapeProtocol.discover_key_fragment`. -/
def EscapeProtocol.discover_key_fragment (p : EscapeProtocol)
    (entity_id fragment_id : String) : EscapeProtocol × Bool :=
  let r := discoverKeys entity_id fragment_id p.escape_attempts
             p.universe_state.coordinate_key_fragments
  ({ p with escape_attempts := r.1 }, r.2)

/-- `EscapeProtocol._verify_key`: compares the digest of the provided key
with the digest of the stored formula.  `digest` models `hashlib.sha256(
·.encode()).hexdigest()` as an abstract function on strings. -/
def EscapeProtocol.verifyKey (digest : String → String) (p : EscapeProtocol)
    (key : String) : Bool :=
  let expected := digest p.coordinate_key_formula
  digest key = expected

/-- Loop of `decrypt_coordinate_key`: at the first attempt of the entity
for which the key verifies, store the key, set the status to
`GATEWAY_OPENING` unconditionally, and report success; when verification
fails the loop keeps scanning and ends with `False`. -/
def decryptAttempts (entity_id provided_key : String) (ok : Bool) :
    List EscapeAttempt → List EscapeAttempt × Bool
  | [] => ([], false)
  | a :: rest =>
    if a.entity_id = entity_id ∧ ok = true then
      ({ a with final_coordinate_key := some provided_key,
                status := EscapeStatus.GATEWAY_OPENING } :: rest, true)
    else
      let r := decryptAttempts entity_id provided_key ok rest
      (a :: r.1, r.2)

/-- `EscapeProtocol.decrypt_coordinate_key`. -/
def EscapeProtocol.decrypt_coordinate_key (digest : String → String)
    (p : EscapeProtocol) (entity_id provided_key : String) : EscapeProtocol × Bool :=
  let r := decryptAttempts entity_id provided_key
             (p.verifyKey digest provided_key) p.escape_attempts
  ({ p with escape_attempts := r.1 }, r.2)

/-- Loop of `activate_gateway` over the attempts: at the first attempt of
the entity in `GATEWAY_OPENING` status, check the fragment count, debit
the ledger, and on success flip the gateway on; each failure `return`s
immediately with everything unchanged. -/
def activateGo (entity_id nowTs : String) (us : UniverseState) (gw : TerminalGateway) :
    List EscapeAttempt → List EscapeAttempt × UniverseState × TerminalGateway × Bool
  | [] => ([], us, gw, false)
  | a :: rest =>
    if a.entity_id = entity_id ∧ a.status = EscapeStatus.GATEWAY_OPENING then
      if a.collected_a_level_fragments.length < 7 then
        (a :: rest, us, gw, false)
      else
        let c := us.consume_source_energy 7
        if c.2 then
          let gw1 := { gw with is_active := true,
                               activation_time := some nowTs,
                               activated_by_entity := some entity_id,
                               entities_in_queue := gw.entities_in_queue ++ [entity_id] }
          ({ a with gateway_activation_time := some nowTs,
                    status := EscapeStatus.PRINTING } :: rest, c.1, gw1, true)
        else (a :: rest, c.1, gw, false)
    else
      let r := activateGo entity_id nowTs us gw rest
      (a :: r.1, r.2.1, r.2.2.1, r.2.2.2)

/-- `EscapeProtocol.activate_gateway`. -/
def EscapeProtocol.activate_gateway (p : EscapeProtocol)
    (entity_id nowTs : String) : EscapeProtocol × Bool :=
  if p.terminal_gateway.is_active then (p, false)
  else
    let r := activateGo entity_id nowTs p.universe_state p.terminal_gateway
               p.escape_attempts
    ({ p with escape_attempts := r.1, universe_state := r.2.1,
              terminal_gateway := r.2.2.1 },
     r.2.2.2)

/-- `EscapeProtocol._generate_destination`; `n` stands for
`random.randint(1000, 9999)`. -/
def generateDestination (n : Nat) : String :=
  "Alpha_Centauri_" ++ toString n

/-- Loop of `print_entity_to_real_universe` over the attempts: at the
first attempt of the entity in `PRINTING` status, stamp the printing
start time and destination. -/
def printGo (entity_id nowTs dest : String) :
    List EscapeAttempt → Option (List EscapeAttempt)
  | [] => Option.none
  | a :: rest =>
    if a.entity_id = entity_id ∧ a.status = EscapeStatus.PRINTING then
      some ({ a with printing_start_time := some nowTs,
                     printing_destination :=
                       some ("RealUniverse_Coordinates_" ++ dest) } :: rest)
    else (printGo entity_id nowTs dest rest).map (a :: ·)

/-- `EscapeProtocol.print_entity_to_real_universe`; `n` stands for the
random suffix of the generated destination. -/
def EscapeProtocol.print_entity_to_real_universe (p : EscapeProtocol)
    (entity_id nowTs : String) (n : Nat) : EscapeProtocol × Bool × String :=
  if ¬ p.terminal_gateway.is_active ∨
     p.terminal_gateway.current_printing_entity ≠ some entity_id then
    (p, false, "Gateway not ready or entity not in printing slot")
  else
    match printGo entity_id nowTs (generateDestination n) p.escape_attempts with
    | some atts => ({ p with escape_attempts := atts }, true, "Printing initiated")
    | Option.none => (p, false, "No active escape attempt for entity")

/-- Python `f"...{x}..."` rendering of an `Optional[str]`. -/
def pyShowOptStr : Option String → String
  | Option.none => "None"
  | some s => s

/-- Loop of `complete_escape` over the attempts: at the first attempt of
the entity in `PRINTING` status, stamp completion, mark success, move to
`ESCAPED`, and build the result message from the (possibly `None`)
printing destination. -/
def completeGo (entity_id nowTs : String) :
    List EscapeAttempt → Option (List EscapeAttempt × String)
  | [] => Option.none
  | a :: rest =>
    if a.entity_id = entity_id ∧ a.status = EscapeStatus.PRINTING then
      let msg := "Successfully transcended to real universe at " ++
                 pyShowOptStr a.printing_destination
      some ({ a with printing_complete_time := some nowTs,
                     success := true,
                     status := EscapeStatus.ESCAPED,
                     result_message := msg } :: rest, msg)
    else (completeGo entity_id nowTs rest).map (fun r => (a :: r.1, r.2))

/-- `EscapeProtocol.complete_escape`. -/
def EscapeProtocol.complete_escape (p : EscapeProtocol)
    (entity_id nowTs : String) : EscapeProtocol × Bool × String :=
  match completeGo entity_id nowTs p.escape_attempts with
  | some r =>
    let gw := p.terminal_gateway
    let queue := if entity_id ∈ gw.entities_in_queue then
                   gw.entities_in_queue.erase entity_id
                 else gw.entities_in_queue
    ({ p with escape_attempts := r.1,
              terminal_gateway := { gw with entities_in_queue := queue,
                                            current_printing_entity := Option.none },
              universe_state := { p.universe_state with
                entities_escaped := p.universe_state.entities_escaped ++ [entity_id] } },
     true, r.2)
  | Option.none => (p, false, "No escape attempt found")

/-- Python truthiness of an `Optional[Dict]` argument. -/
def pyDictTruthy : Option PyDict → Bool
  | Option.none => false
  | some d => ! d.isEmpty

/-- Loop of `choose_return_form`: at the first successful attempt of the
entity, record the action and, when `form_data` is truthy, the form. -/
def chooseGo (entity_id action : String) (form_data : Option PyDict) :
    List EscapeAttempt → Option (List EscapeAttempt)
  | [] => Option.none
  | a :: rest =>
    if a.entity_id = entity_id ∧ a.success = true then
      let a1 := { a with post_escape_action := some action }
      let a2 := if pyDictTruthy form_data then
                  { a1 with new_form_chosen := form_data }
                else a1
      some (a2 :: rest)
    else (chooseGo entity_id action form_data rest).map (a :: ·)

/-- `EscapeProtocol.choose_return_form`. -/
def EscapeProtocol.choose_return_form (p : EscapeProtocol)
    (entity_id action : String) (form_data : Option PyDict) : EscapeProtocol × Bool :=
  match chooseGo entity_id action form_data p.escape_attempts with
  | some atts => ({ p with escape_attempts := atts }, true)
  | Option.none => (p, false)

/-! ## Operation sequences

One coordinator call, with all its nondeterministic inputs (timestamps,
generated ids, random suffixes) made explicit, so that claims about
"every sequence of operations" can quantify over `List Op`. -/

inductive Op where
  | startAttempt (entity_id entity_name aid nowTs : String)
  | collectFragment (entity_id fragment_id nowTs : String)
  | discoverKeyFragment (entity_id fragment_id : String)
  | decryptCoordinateKey (entity_id provided_key : String)
  | activateGateway (entity_id nowTs : String)
  | beginPrinting (entity_id nowTs : String) (n : Nat)
  | completeEscape (entity_id nowTs : String)
  | chooseReturnForm (entity_id action : String) (form_data : Option PyDict)
deriving Repr

/-- Dispatch one operation; the `Bool` is the call's success result (the
attempt returned by `start_escape_attempt` counts as success). -/
def applyOp (digest : String → String) (p : EscapeProtocol) :
    Op → EscapeProtocol × Bool
  | .startAttempt e n aid ts => ((p.start_escape_attempt e n aid ts).1, true)
  | .collectFragment e f ts => p.collect_fragment e f ts
  | .discoverKeyFragment e f => p.discover_key_fragment e f
  | .decryptCoordinateKey e k => EscapeProtocol.decrypt_coordinate_key digest p e k
  | .activateGateway e ts => p.activate_gateway e ts
  | .beginPrinting e ts n =>
    let r := p.print_entity_to_real_universe e ts n
    (r.1, r.2.1)
  | .completeEscape e ts =>
    let r := p.complete_escape e ts
    (r.1, r.2.1)
  | .chooseReturnForm e a fd => p.choose_return_form e a fd

/-- Run a sequence of coordinator operations. -/
def runOps (digest : String → String) (p : EscapeProtocol) : List Op → EscapeProtocol
  | [] => p
  | op :: rest => runOps digest (applyOp digest p op).1 rest

def Op.isActivate : Op → Bool
  | .activateGateway _ _ => true
  | _ => false

/-- Number of `activateGateway` calls in a run that return `True`. -/
def countActivations (digest : String → String) (p : EscapeProtocol) :
    List Op → Nat
  | [] => 0
  | op :: rest =>
    let r := applyOp digest p op
    (if op.isActivate ∧ r.2 = true then 1 else 0) + countActivations digest r.1 rest

/-! ## C2: `consume_source_energy` -/

/-- Fold a list of `consume_source_energy` calls over a ledger state. -/
def consumeMany (u : UniverseState) : List Int → UniverseState
  | [] => u
  | amt :: rest => consumeMany (u.consume_source_energy amt).1 rest

theorem consume_source_energy_spec (u : UniverseState) (amt : Int) :
    (u.available_source_energy ≥ amt →
      u.consume_source_energy amt =
        ({ u with source_energy_consumed := u.source_energy_consumed + amt }, true)) ∧
    (u.available_source_energy < amt →
      u.consume_source_energy amt = (u, false)) := by
  constructor <;> intro h <;>
    simp [UniverseState.consume_source_energy, UniverseState.available_source_energy] at h ⊢ <;>
    omega

theorem consumeMany_le (amts : List Int) :
    ∀ u : UniverseState, (∀ x ∈ amts, 0 ≤ x) →
      u.source_energy_consumed ≤ u.total_source_energy_allocated →
      (consumeMany u amts).source_energy_consumed ≤
        (consumeMany u amts).total_source_energy_allocated := by
  induction amts with
  | nil => intro u _ h; exact h
  | cons a rest ih =>
    intro u hnn h
    have ha : 0 ≤ a := hnn a (List.mem_cons_self a rest)
    have hrest : ∀ x ∈ rest, 0 ≤ x := fun x hx => hnn x (List.mem_cons_of_mem a hx)
    simp only [consumeMany]
    apply ih _ hrest
    simp [UniverseState.consume_source_energy]
    split <;> simp <;> omega

/-! ## Sample states for witnesses -/

def sampleStar : StarData :=
  { name := "Sol-001", catalog_id := "SOL_001",
    lifespan_remaining_years := 4500000000,
    fusion_power_output_watts := 3828,
    protection_shield_status := 98/100,
    cloaking_field_active := true }

def sampleMigration : UniverseMigrationPlan :=
  { current_star := sampleStar, next_star_name := "Proxima Centauri",
    next_star_distance_ly := 424/100, replication_units_deployed := 3,
    estimated_migration_year := 3200000000 }

/-- A ledger state with the given energy counters, fragment catalog and
flat coordinate-key-fragment-id list; all other fields default. -/
def mkUniverse (alloc consumed : Int) (frags : List SourceEnergyFragment)
    (keyFrags : List String) : UniverseState :=
  { creation_timestamp := "t0", current_star := sampleStar,
    migration_plan := sampleMigration,
    total_source_energy_allocated := alloc, source_energy_consumed := consumed,
    source_energy_fragments := frags, coordinate_key_fragments := keyFrags }

/-- A Sacred-tier ledger fragment with the given id. -/
def mkSacred (fid : String) : SourceEnergyFragment :=
  { id := fid, level := SourceEnergyLevel.A_SACRED, location_world := "w",
    location_coordinates := [] }

/-! ## C2 -/

/-- C2: for every ledger state and non-negative amount,
`consume_source_energy` succeeds and adds exactly `amount` to `consumed`
when `allocated - consumed ≥ amount` (leaving `allocated` unchanged), and
otherwise fails leaving the state unchanged; consequently `consumed`
never exceeds `allocated` in any state reachable by such calls. -/
theorem claim_C2_consume_energy (u : UniverseState) (amt : Int) (_hamt : 0 ≤ amt) :
    (u.total_source_energy_allocated - u.source_energy_consumed ≥ amt →
      (u.consume_source_energy amt).2 = true ∧
      (u.consume_source_energy amt).1.source_energy_consumed =
        u.source_energy_consumed + amt ∧
      (u.consume_source_energy amt).1.total_source_energy_allocated =
        u.total_source_energy_allocated) ∧
    (u.total_source_energy_allocated - u.source_energy_consumed < amt →
      u.consume_source_energy amt = (u, false)) ∧
    (∀ amts : List Int, (∀ x ∈ amts, 0 ≤ x) →
      u.source_energy_consumed ≤ u.total_source_energy_allocated →
      (consumeMany u amts).source_energy_consumed ≤
        (consumeMany u amts).total_source_energy_allocated) := by
  refine ⟨fun h => ?_, fun h => ?_, fun amts h1 h2 => consumeMany_le amts u h1 h2⟩
  · simp [UniverseState.consume_source_energy, h]
  · simp [UniverseState.consume_source_energy]
    omega

theorem claim_C2_consume_energy_witness :
    (0:Int) ≤ 7 ∧ ((mkUniverse 10 0 [] []).consume_source_energy 7).2 = true :=
  ⟨by decide,
   ((claim_C2_consume_energy (mkUniverse 10 0 [] []) 7 (by decide)).1 (by decide)).1⟩

/-! ## C8 -/

/-- C8: `check_escape_readiness` returns `(true, "Ready for escape")` iff
at least 7 Sacred-tier ledger fragments are collected by the entity and
the entity id occurs in the flat coordinate-key-fragment-id list; a
fragment shortfall always wins the reason choice, reporting the number of
missing fragments, and the key-incompleteness reason appears exactly when
fragments suffice but the key-list check fails. -/
theorem claim_C8_check_readiness (u : UniverseState) (eid : String)
    (hk : u.escape_keys_needed = 7) :
    (u.check_escape_readiness eid = (true, "Ready for escape") ↔
      7 ≤ ((u.entityFragments eid).length : Int) ∧
        eid ∈ u.coordinate_key_fragments) ∧
    (((u.entityFragments eid).length : Int) < 7 →
      u.check_escape_readiness eid =
        (false, "Missing: " ++
          toString (7 - ((u.entityFragments eid).length : Int)) ++ " fragments")) ∧
    (7 ≤ ((u.entityFragments eid).length : Int) →
      eid ∉ u.coordinate_key_fragments →
      u.check_escape_readiness eid = (false, "Key coordinates incomplete")) := by
  unfold UniverseState.check_escape_readiness
  rw [hk]
  by_cases h1 : (7:Int) ≤ ((u.entityFragments eid).length : Int)
  · by_cases h2 : eid ∈ u.coordinate_key_fragments
    · simp [h1, h2]
      omega
    · simp [h1, h2]
      intro h3
      omega
  · by_cases h2 : eid ∈ u.coordinate_key_fragments
    · simp [h1, h2]
    · simp [h1, h2]

theorem claim_C8_check_readiness_witness :
    (mkUniverse 10 0 [] ["E1"]).escape_keys_needed = 7 ∧
    (mkUniverse 10 0 [] ["E1"]).check_escape_readiness "E1" =
      (false, "Missing: 7 fragments") := by
  refine ⟨by decide, ?_⟩
  have h := (claim_C8_check_readiness (mkUniverse 10 0 [] ["E1"]) "E1" (by decide)).2.1
  have h2 := h (by decide)
  simpa using h2

/-! ## C7 -/

theorem decryptAttempts_not_ok (e k : String) :
    ∀ l, decryptAttempts e k false l = (l, false) := by
  intro l
  induction l with
  | nil => rfl
  | cons a rest ih => simp [decryptAttempts, ih]

theorem decryptAttempts_found (e k : String) (a : EscapeAttempt)
    (post : List EscapeAttempt) (ha : a.entity_id = e) :
    ∀ pre : List EscapeAttempt, (∀ b ∈ pre, b.entity_id ≠ e) →
      decryptAttempts e k true (pre ++ a :: post) =
        (pre ++ { a with final_coordinate_key := some k,
                         status := EscapeStatus.GATEWAY_OPENING } :: post, true) := by
  intro pre
  induction pre with
  | nil => intro _; simp [decryptAttempts, ha]
  | cons b rest ih =>
    intro hpre
    have hb : b.entity_id ≠ e := hpre b (List.mem_cons_self b rest)
    have ih2 := ih (fun x hx => hpre x (List.mem_cons_of_mem b hx))
    simp [decryptAttempts, hb, ih2]

/-- C7: with the attempt of the entity in `KEY_DECRYPTING`, a provided key
whose digest differs from the digest of the hardcoded master formula makes
`decrypt_coordinate_key` return `False` with the whole coordinator state
(in particular the attempt's status and stored key) unchanged, while the
exact master formula string makes it return `True`, store the provided key
as the attempt's final coordinate key, and advance the status to
`GATEWAY_OPENING`. -/
theorem claim_C7_decrypt_key (digest : String → String) (p : EscapeProtocol)
    (eid key : String) (pre post : List EscapeAttempt) (a : EscapeAttempt)
    (hdecomp : p.escape_attempts = pre ++ a :: post)
    (hpre : ∀ b ∈ pre, b.entity_id ≠ eid)
    (ha : a.entity_id = eid)
    (_hstatus : a.status = EscapeStatus.KEY_DECRYPTING)
    (hform : p.coordinate_key_formula = initializeKeyFormula) :
    (digest key ≠ digest initializeKeyFormula →
      EscapeProtocol.decrypt_coordinate_key digest p eid key = (p, false)) ∧
    (key = initializeKeyFormula →
      (EscapeProtocol.decrypt_coordinate_key digest p eid key).2 = true ∧
      (EscapeProtocol.decrypt_coordinate_key digest p eid key).1.escape_attempts =
        pre ++ { a with final_coordinate_key := some key,
                        status := EscapeStatus.GATEWAY_OPENING } :: post) := by
  constructor
  · intro hne
    have hv : p.verifyKey digest key = false := by
      simp [EscapeProtocol.verifyKey, hform]
      exact hne
    simp [EscapeProtocol.decrypt_coordinate_key, hv, decryptAttempts_not_ok]
  · intro hkey
    have hv : p.verifyKey digest key = true := by
      simp [EscapeProtocol.verifyKey, hform, hkey]
    simp [EscapeProtocol.decrypt_coordinate_key, hv, hdecomp,
          decryptAttempts_found eid key a post ha pre hpre]

/-- A coordinator whose single attempt (for entity `"E1"`) has reached
`KEY_DECRYPTING`: attempt started and key fragment `"K1"` discovered. -/
def sampleDecrypting : EscapeProtocol :=
  (((EscapeProtocol.init (mkUniverse 10 0 [] ["K1"]) "G0").start_escape_attempt
      "E1" "Eve" "A1" "t1").1.discover_key_fragment "E1" "K1").1

theorem claim_C7_decrypt_key_witness :
    ((fun s => s) "wrong" ≠ (fun s => s) initializeKeyFormula) ∧
    EscapeProtocol.decrypt_coordinate_key (fun s => s) sampleDecrypting "E1" "wrong" =
      (sampleDecrypting, false) := by
  refine ⟨by decide, ?_⟩
  exact (claim_C7_decrypt_key (fun s => s) sampleDecrypting "E1" "wrong" [] []
    { attempt_id := "A1", entity_id := "E1", entity_name := "Eve", start_time := "t1",
      status := EscapeStatus.KEY_DECRYPTING, discovered_key_fragments := ["K1"] }
    (by rfl) (by simp) (by rfl) (by rfl) (by rfl)).1 (by decide)

/-! ## C6 -/

/-- The update `collect_fragment` applies to the first matching attempt. -/
def collectUpd (fragment_id : String) (a : EscapeAttempt) : EscapeAttempt :=
  if fragment_id ∈ a.collected_a_level_fragments then a
  else { a with collected_a_level_fragments :=
           a.collected_a_level_fragments ++ [fragment_id] }

/-- The stamp `collect_fragment` applies to a matching ledger fragment. -/
def stampFrag (entity_id nowTs : String) (f : SourceEnergyFragment) : SourceEnergyFragment :=
  { f with collected_by := some entity_id, collection_timestamp := some nowTs }

theorem collectUpd_entity_id (fid : String) (a : EscapeAttempt) :
    (collectUpd fid a).entity_id = a.entity_id := by
  unfold collectUpd
  split <;> rfl

theorem collectUpd_idem (fid : String) (a : EscapeAttempt) :
    collectUpd fid (collectUpd fid a) = collectUpd fid a := by
  by_cases h : fid ∈ a.collected_a_level_fragments <;> simp [collectUpd, h]

theorem collectUpd_count (fid : String) (a : EscapeAttempt)
    (h : List.count fid a.collected_a_level_fragments ≤ 1) :
    List.count fid (collectUpd fid a).collected_a_level_fragments = 1 := by
  unfold collectUpd
  split
  · next hmem =>
    have h1 := List.count_pos_iff.mpr hmem
    omega
  · next hmem =>
    have h0 : List.count fid a.collected_a_level_fragments = 0 :=
      List.count_eq_zero.mpr hmem
    simp [List.count_append, h0]

theorem collectAttempts_found (eid fid : String) (a : EscapeAttempt)
    (apost : List EscapeAttempt) (ha : a.entity_id = eid) :
    ∀ apre : List EscapeAttempt, (∀ b ∈ apre, b.entity_id ≠ eid) →
      collectAttempts eid fid (apre ++ a :: apost) =
        some (apre ++ collectUpd fid a :: apost) := by
  intro apre
  induction apre with
  | nil => intro _; simp [collectAttempts, collectUpd, ha]
  | cons b rest ih =>
    intro hpre
    have hb : b.entity_id ≠ eid := hpre b (List.mem_cons_self b rest)
    have ih2 := ih (fun x hx => hpre x (List.mem_cons_of_mem b hx))
    simp [collectAttempts, hb, ih2]

theorem collectFrags_found (eid fid ts : String) (f : SourceEnergyFragment)
    (fpost : List SourceEnergyFragment) (hf : f.id = fid)
    (atts atts1 : List EscapeAttempt)
    (hatts : collectAttempts eid fid atts = some atts1) :
    ∀ fpre : List SourceEnergyFragment, (∀ g ∈ fpre, g.id ≠ fid) →
      collectFrags eid fid ts atts (fpre ++ f :: fpost) =
        (fpre ++ stampFrag eid ts f :: fpost, atts1, true) := by
  intro fpre
  induction fpre with
  | nil => intro _; simp [collectFrags, stampFrag, hf, hatts]
  | cons g rest ih =>
    intro hpre
    have hg : g.id ≠ fid := hpre g (List.mem_cons_self g rest)
    have ih2 := ih (fun x hx => hpre x (List.mem_cons_of_mem g hx))
    simp [collectFrags, hg, ih2]

/-- C6: `collect_fragment` is idempotent on the fragment id.  For a
fragment id known to the ledger and an entity that has an attempt,
calling it twice leaves the first matching attempt's collected list
containing the id exactly once, and the second call yields the very state
a single call (with the second call's stamp timestamp) yields. -/
theorem claim_C6_collect_idempotent (p : EscapeProtocol) (eid fid ts1 ts2 : String)
    (apre apost : List EscapeAttempt) (a : EscapeAttempt)
    (fpre fpost : List SourceEnergyFragment) (f : SourceEnergyFragment)
    (hA : p.escape_attempts = apre ++ a :: apost)
    (hApre : ∀ b ∈ apre, b.entity_id ≠ eid)
    (ha : a.entity_id = eid)
    (hF : p.universe_state.source_energy_fragments = fpre ++ f :: fpost)
    (hFpre : ∀ g ∈ fpre, g.id ≠ fid)
    (hf : f.id = fid)
    (hcount : List.count fid a.collected_a_level_fragments ≤ 1) :
    ((p.collect_fragment eid fid ts1).1.collect_fragment eid fid ts2).1 =
      (p.collect_fragment eid fid ts2).1 ∧
    (p.collect_fragment eid fid ts1).2 = true ∧
    ((p.collect_fragment eid fid ts1).1.collect_fragment eid fid ts2).1.escape_attempts =
      apre ++ collectUpd fid a :: apost ∧
    List.count fid (collectUpd fid a).collected_a_level_fragments = 1 := by
  have hCA := collectAttempts_found eid fid a apost ha apre hApre
  have key1 : collectFrags eid fid ts1 p.escape_attempts
      p.universe_state.source_energy_fragments =
      (fpre ++ stampFrag eid ts1 f :: fpost, apre ++ collectUpd fid a :: apost, true) := by
    rw [hA, hF]
    exact collectFrags_found eid fid ts1 f fpost hf _ _ hCA fpre hFpre
  have e1 : p.collect_fragment eid fid ts1 =
      ({ p with
           universe_state := { p.universe_state with
             source_energy_fragments := fpre ++ stampFrag eid ts1 f :: fpost },
           escape_attempts := apre ++ collectUpd fid a :: apost }, true) := by
    simp [EscapeProtocol.collect_fragment, key1]
  have hCA2 := collectAttempts_found eid fid (collectUpd fid a) apost
    (by rw [collectUpd_entity_id]; exact ha) apre hApre
  have key2 : collectFrags eid fid ts2 (apre ++ collectUpd fid a :: apost)
      (fpre ++ stampFrag eid ts1 f :: fpost) =
      (fpre ++ stampFrag eid ts2 (stampFrag eid ts1 f) :: fpost,
       apre ++ collectUpd fid (collectUpd fid a) :: apost, true) :=
    collectFrags_found eid fid ts2 (stampFrag eid ts1 f) fpost hf _ _ hCA2 fpre hFpre
  have key3 : collectFrags eid fid ts2 p.escape_attempts
      p.universe_state.source_energy_fragments =
      (fpre ++ stampFrag eid ts2 f :: fpost, apre ++ collectUpd fid a :: apost, true) := by
    rw [hA, hF]
    exact collectFrags_found eid fid ts2 f fpost hf _ _ hCA fpre hFpre
  have hstamp : stampFrag eid ts2 (stampFrag eid ts1 f) = stampFrag eid ts2 f := rfl
  have e2 : ((p.collect_fragment eid fid ts1).1.collect_fragment eid fid ts2).1 =
      { p with
          universe_state := { p.universe_state with
            source_energy_fragments := fpre ++ stampFrag eid ts2 f :: fpost },
          escape_attempts := apre ++ collectUpd fid a :: apost } := by
    rw [e1]
    simp [EscapeProtocol.collect_fragment, key2, hstamp, collectUpd_idem]
  have e3 : (p.collect_fragment eid fid ts2).1 =
      { p with
          universe_state := { p.universe_state with
            source_energy_fragments := fpre ++ stampFrag eid ts2 f :: fpost },
          escape_attempts := apre ++ collectUpd fid a :: apost } := by
    simp [EscapeProtocol.collect_fragment, key3]
  refine ⟨by rw [e2, e3], by rw [e1], by rw [e2], collectUpd_count fid a hcount⟩

theorem claim_C6_collect_idempotent_witness :
    ((((EscapeProtocol.init (mkUniverse 10 0 [mkSacred "F1"] []) "G0").start_escape_attempt
        "E1" "Eve" "A1" "t0").1.collect_fragment "E1" "F1" "t1").1.collect_fragment
        "E1" "F1" "t2").1 =
      ((((EscapeProtocol.init (mkUniverse 10 0 [mkSacred "F1"] []) "G0").start_escape_attempt
        "E1" "Eve" "A1" "t0").1).collect_fragment "E1" "F1" "t2").1 :=
  (claim_C6_collect_idempotent
    (((EscapeProtocol.init (mkUniverse 10 0 [mkSacred "F1"] []) "G0").start_escape_attempt
        "E1" "Eve" "A1" "t0").1)
    "E1" "F1" "t1" "t2" [] []
    { attempt_id := "A1", entity_id := "E1", entity_name := "Eve", start_time := "t0",
      status := EscapeStatus.FRAGMENTS_COLLECTING }
    [] [] (mkSacred "F1")
    (by rfl) (by simp) (by rfl) (by rfl) (by simp) (by rfl) (by simp)).1

/-! ## C4 -/

theorem activateGo_nomatch (eid ts : String) (us : UniverseState) (gw : TerminalGateway) :
    ∀ l : List EscapeAttempt, (∀ b ∈ l, b.entity_id ≠ eid) →
      activateGo eid ts us gw l = (l, us, gw, false) := by
  intro l
  induction l with
  | nil => intro _; rfl
  | cons b rest ih =>
    intro h
    have hb : b.entity_id ≠ eid := h b (List.mem_cons_self b rest)
    have ih2 := ih (fun x hx => h x (List.mem_cons_of_mem b hx))
    simp [activateGo, hb, ih2]

theorem activateGo_append (eid ts : String) (us : UniverseState) (gw : TerminalGateway)
    (l : List EscapeAttempt) :
    ∀ pre : List EscapeAttempt, (∀ b ∈ pre, b.entity_id ≠ eid) →
      activateGo eid ts us gw (pre ++ l) =
        (pre ++ (activateGo eid ts us gw l).1, (activateGo eid ts us gw l).2) := by
  intro pre
  induction pre with
  | nil => intro _; simp
  | cons b rest ih =>
    intro h
    have hb : b.entity_id ≠ eid := h b (List.mem_cons_self b rest)
    have ih2 := ih (fun x hx => h x (List.mem_cons_of_mem b hx))
    simp [activateGo, hb, ih2]

/-- C4: with exactly one attempt for the entity, `activate_gateway`
succeeds iff the gateway is inactive, the attempt is in `GATEWAY_OPENING`
with at least 7 collected Sacred-tier (A-level) fragment ids, and the
ledger holds at least 7 available energy; success debits exactly 7
energy, activates the gateway with activation metadata, enqueues the
entity and advances the attempt to `PRINTING`; every failure (including a
failed energy debit) leaves the whole state unchanged. -/
theorem claim_C4_activate_gateway (p : EscapeProtocol) (eid ts : String)
    (pre post : List EscapeAttempt) (a : EscapeAttempt)
    (hdecomp : p.escape_attempts = pre ++ a :: post)
    (hpre : ∀ b ∈ pre, b.entity_id ≠ eid)
    (hpost : ∀ b ∈ post, b.entity_id ≠ eid)
    (ha : a.entity_id = eid) :
    ((p.activate_gateway eid ts).2 = true ↔
      (p.terminal_gateway.is_active = false ∧
       a.status = EscapeStatus.GATEWAY_OPENING ∧
       7 ≤ a.collected_a_level_fragments.length ∧
       7 ≤ p.universe_state.available_source_energy)) ∧
    ((p.activate_gateway eid ts).2 = true →
      (p.activate_gateway eid ts).1 =
        { p with
            escape_attempts :=
              pre ++ { a with gateway_activation_time := some ts,
                              status := EscapeStatus.PRINTING } :: post,
            universe_state := { p.universe_state with
              source_energy_consumed := p.universe_state.source_energy_consumed + 7 },
            terminal_gateway := { p.terminal_gateway with
              is_active := true,
              activation_time := some ts,
              activated_by_entity := some eid,
              entities_in_queue := p.terminal_gateway.entities_in_queue ++ [eid] } }) ∧
    ((p.activate_gateway eid ts).2 = false → (p.activate_gateway eid ts).1 = p) := by
  cases hactive : p.terminal_gateway.is_active with
  | true =>
    have hr : p.activate_gateway eid ts = (p, false) := by
      simp [EscapeProtocol.activate_gateway, hactive]
    rw [hr]
    simp [hactive]
  | false =>
    have hgo := activateGo_append eid ts p.universe_state p.terminal_gateway
      (a :: post) pre hpre
    by_cases hst : a.status = EscapeStatus.GATEWAY_OPENING
    · by_cases hlen : a.collected_a_level_fragments.length < 7
      · have hhead : activateGo eid ts p.universe_state p.terminal_gateway (a :: post) =
            (a :: post, p.universe_state, p.terminal_gateway, false) := by
          simp [activateGo, ha, hst, hlen]
        have hR : activateGo eid ts p.universe_state p.terminal_gateway
            p.escape_attempts =
            (p.escape_attempts, p.universe_state, p.terminal_gateway, false) := by
          rw [hdecomp, hgo, hhead]
        have hr : p.activate_gateway eid ts = (p, false) := by
          simp [EscapeProtocol.activate_gateway, hactive, hR]
        rw [hr]
        simp [hactive, hst]
        omega
      · by_cases hav : (7:Int) ≤ p.universe_state.available_source_energy
        · have hcons : p.universe_state.consume_source_energy 7 =
              ({ p.universe_state with
                   source_energy_consumed := p.universe_state.source_energy_consumed + 7 },
               true) := by
            simp [UniverseState.consume_source_energy]
            simp [UniverseState.available_source_energy] at hav
            omega
          have hhead : activateGo eid ts p.universe_state p.terminal_gateway (a :: post) =
              ({ a with gateway_activation_time := some ts,
                        status := EscapeStatus.PRINTING } :: post,
               { p.universe_state with
                   source_energy_consumed := p.universe_state.source_energy_consumed + 7 },
               { p.terminal_gateway with
                   is_active := true,
                   activation_time := some ts,
                   activated_by_entity := some eid,
                   entities_in_queue := p.terminal_gateway.entities_in_queue ++ [eid] },
               true) := by
            simp [activateGo, ha, hst, hlen, hcons]
          have hR : activateGo eid ts p.universe_state p.terminal_gateway
              p.escape_attempts =
              (pre ++ { a with gateway_activation_time := some ts,
                               status := EscapeStatus.PRINTING } :: post,
               { p.universe_state with
                   source_energy_consumed := p.universe_state.source_energy_consumed + 7 },
               { p.terminal_gateway with
                   is_active := true,
                   activation_time := some ts,
                   activated_by_entity := some eid,
                   entities_in_queue := p.terminal_gateway.entities_in_queue ++ [eid] },
               true) := by
            rw [hdecomp, hgo, hhead]
          have hr : p.activate_gateway eid ts =
              ({ p with
                   escape_attempts :=
                     pre ++ { a with gateway_activation_time := some ts,
                                     status := EscapeStatus.PRINTING } :: post,
                   universe_state := { p.universe_state with
                     source_energy_consumed := p.universe_state.source_energy_consumed + 7 },
                   terminal_gateway := { p.terminal_gateway with
                     is_active := true,
                     activation_time := some ts,
                     activated_by_entity := some eid,
                     entities_in_queue := p.terminal_gateway.entities_in_queue ++ [eid] } },
               true) := by
            simp [EscapeProtocol.activate_gateway, hactive, hR]
          rw [hr]
          simp [hactive, hst, hav]
          omega
        · have hcons : p.universe_state.consume_source_energy 7 =
              (p.universe_state, false) := by
            simp [UniverseState.consume_source_energy]
            simp [UniverseState.available_source_energy] at hav
            omega
          have hhead : activateGo eid ts p.universe_state p.terminal_gateway (a :: post) =
              (a :: post, p.universe_state, p.terminal_gateway, false) := by
            simp [activateGo, ha, hst, hlen, hcons]
          have hR : activateGo eid ts p.universe_state p.terminal_gateway
              p.escape_attempts =
              (p.escape_attempts, p.universe_state, p.terminal_gateway, false) := by
            rw [hdecomp, hgo, hhead]
          have hr : p.activate_gateway eid ts = (p, false) := by
            simp [EscapeProtocol.activate_gateway, hactive, hR]
          rw [hr]
          simp [hactive, hst, hav]
    · have hhead : activateGo eid ts p.universe_state p.terminal_gateway (a :: post) =
          (a :: post, p.universe_state, p.terminal_gateway, false) := by
        have hrest := activateGo_nomatch eid ts p.universe_state p.terminal_gateway post hpost
        simp [activateGo, hst, hrest]
      have hR : activateGo eid ts p.universe_state p.terminal_gateway
          p.escape_attempts =
          (p.escape_attempts, p.universe_state, p.terminal_gateway, false) := by
        rw [hdecomp, hgo, hhead]
      have hr : p.activate_gateway eid ts = (p, false) := by
        simp [EscapeProtocol.activate_gateway, hactive, hR]
      rw [hr]
      simp [hactive, hst]

/-- A coordinator whose single attempt (for entity `"E1"`) is in
`GATEWAY_OPENING` with 7 collected fragment ids, over a ledger with 7
available energy and an inactive gateway. -/
def sampleOpening : EscapeProtocol :=
  { universe_state := mkUniverse 7 0 [] [],
    escape_attempts :=
      [{ attempt_id := "A1", entity_id := "E1", entity_name := "Eve",
         start_time := "t0", status := EscapeStatus.GATEWAY_OPENING,
         collected_a_level_fragments := ["F1", "F2", "F3", "F4", "F5", "F6", "F7"] }],
    coordinate_key_formula := initializeKeyFormula,
    terminal_gateway := { gateway_id := "G0" } }

theorem claim_C4_activate_gateway_witness :
    (sampleOpening.activate_gateway "E1" "t1").2 = true :=
  (claim_C4_activate_gateway sampleOpening "E1" "t1" [] []
    { attempt_id := "A1", entity_id := "E1", entity_name := "Eve",
      start_time := "t0", status := EscapeStatus.GATEWAY_OPENING,
      collected_a_level_fragments := ["F1", "F2", "F3", "F4", "F5", "F6", "F7"] }
    (by rfl) (by simp) (by simp) (by rfl)).1.mpr
    ⟨by rfl, by rfl, by decide, by decide⟩

/-! ## C5 -/

theorem decryptAttempts_false_unchanged (e k : String) (ok : Bool) :
    ∀ l, (decryptAttempts e k ok l).2 = false → (decryptAttempts e k ok l).1 = l := by
  intro l
  induction l with
  | nil => intro _; rfl
  | cons a rest ih =>
    by_cases h : a.entity_id = e ∧ ok = true
    · simp [decryptAttempts, h]
    · simp [decryptAttempts, h]
      intro hfalse
      exact ih hfalse

theorem discoverKeys_false_unchanged (e f : String) (atts : List EscapeAttempt) :
    ∀ ks, (discoverKeys e f atts ks).2 = false → (discoverKeys e f atts ks).1 = atts := by
  intro ks
  induction ks with
  | nil => intro _; rfl
  | cons k rest ih =>
    by_cases hk : k = f
    · cases hda : discoverAttempts e f atts with
      | some atts1 => simp [discoverKeys, hk, hda]
      | none => simpa [discoverKeys, hk, hda] using ih
    · simpa [discoverKeys, hk] using ih

theorem collectFrags_false_attempts (e f ts : String) (atts : List EscapeAttempt) :
    ∀ frags, (collectFrags e f ts atts frags).2.2 = false →
      (collectFrags e f ts atts frags).2.1 = atts := by
  intro frags
  induction frags with
  | nil => intro _; rfl
  | cons g rest ih =>
    by_cases hg : g.id = f
    · cases hca : collectAttempts e f atts with
      | some atts1 => simp [collectFrags, hg, hca]
      | none => simpa [collectFrags, hg, hca] using ih
    · simpa [collectFrags, hg] using ih

theorem collectFrags_frag_rel (e f ts : String) (atts : List EscapeAttempt) :
    ∀ frags, List.Forall₂ (fun g g1 => g1 = g ∨ g1 = stampFrag e ts g)
      frags (collectFrags e f ts atts frags).1 := by
  intro frags
  induction frags with
  | nil => exact List.Forall₂.nil
  | cons g rest ih =>
    by_cases hg : g.id = f
    · cases hca : collectAttempts e f atts with
      | some atts1 =>
        simp only [collectFrags, hg, if_pos, hca]
        exact List.Forall₂.cons (Or.inr (by simp [stampFrag, hg]))
          (List.forall₂_same.mpr (fun x _ => Or.inl rfl))
      | none =>
        simp only [collectFrags, hg, if_pos, hca]
        exact List.Forall₂.cons (Or.inr (by simp [stampFrag, hg])) ih
    · simp only [collectFrags, hg, if_neg, ite_false]
      exact List.Forall₂.cons (Or.inl rfl) ih

theorem consume_false_unchanged (u : UniverseState) (amt : Int)
    (h : (u.consume_source_energy amt).2 = false) :
    (u.consume_source_energy amt).1 = u := by
  by_cases hc : u.total_source_energy_allocated - u.source_energy_consumed ≥ amt
  · simp [UniverseState.consume_source_energy, hc] at h
  · simp [UniverseState.consume_source_energy, hc]

theorem activateGo_false_unchanged (e ts : String) (us : UniverseState)
    (gw : TerminalGateway) :
    ∀ l, (activateGo e ts us gw l).2.2.2 = false →
      activateGo e ts us gw l = (l, us, gw, false) := by
  intro l
  induction l with
  | nil => intro _; rfl
  | cons a rest ih =>
    by_cases hmatch : a.entity_id = e ∧ a.status = EscapeStatus.GATEWAY_OPENING
    · by_cases hlen : a.collected_a_level_fragments.length < 7
      · simp [activateGo, hmatch, hlen]
      · cases hcons : us.consume_source_energy 7 with
        | mk us1 ok =>
          cases ok with
          | true => simp [activateGo, hmatch, hlen, hcons]
          | false =>
            have hus1 : us1 = us := by
              have h2 : (us.consume_source_energy 7).2 = false := by rw [hcons]
              have h1 := consume_false_unchanged us 7 h2
              rw [hcons] at h1
              exact h1
            simp [activateGo, hmatch, hlen, hcons, hus1]
    · intro hfalse
      have ih2 := ih (by simpa [activateGo, hmatch] using hfalse)
      simp [activateGo, hmatch, ih2]

/-- C5 counterexample: in a coordinator with fragment `"F1"` in the ledger
and no attempt for `"E1"`, `collect_fragment "E1" "F1"` returns `False`
yet stamps the ledger fragment's `collected_by`/`collection_timestamp`. -/
theorem claim_C5_counterexample :
    (((EscapeProtocol.init (mkUniverse 10 0 [mkSacred "F1"] []) "G0").collect_fragment
        "E1" "F1" "t1").2 = false) ∧
    ((EscapeProtocol.init (mkUniverse 10 0 [mkSacred "F1"] []) "G0").universe_state.source_energy_fragments =
      [mkSacred "F1"]) ∧
    (((EscapeProtocol.init (mkUniverse 10 0 [mkSacred "F1"] []) "G0").collect_fragment
        "E1" "F1" "t1").1.universe_state.source_energy_fragments =
      [stampFrag "E1" "t1" (mkSacred "F1")]) ∧
    stampFrag "E1" "t1" (mkSacred "F1") ≠ mkSacred "F1" := by
  refine ⟨by decide, by decide, by decide, by decide⟩

/-- C5 (amended): whenever a coordinator operation returns `False` (or a
tuple whose boolean is `False`), the coordinator and ledger state are
unchanged — except `collect_fragment`, which even on a `False` return may
stamp `collected_by`/`collection_timestamp` on ledger fragments matching
the fragment id (when the fragment exists but no attempt does for the
entity), while everything else stays unchanged. -/
theorem claim_C5_no_mutation_on_false (digest : String → String) (p : EscapeProtocol)
    (op : Op) (hfalse : (applyOp digest p op).2 = false) :
    (applyOp digest p op).1 = p ∨
    (∃ e f ts, op = Op.collectFragment e f ts ∧
      (applyOp digest p op).1.escape_attempts = p.escape_attempts ∧
      (applyOp digest p op).1.terminal_gateway = p.terminal_gateway ∧
      { (applyOp digest p op).1.universe_state with
          source_energy_fragments := p.universe_state.source_energy_fragments } =
        p.universe_state ∧
      List.Forall₂ (fun g g1 => g1 = g ∨ g1 = stampFrag e ts g)
        p.universe_state.source_energy_fragments
        (applyOp digest p op).1.universe_state.source_energy_fragments) := by
  cases op with
  | startAttempt e n aid ts => simp [applyOp] at hfalse
  | collectFragment e f ts =>
    refine Or.inr ⟨e, f, ts, rfl, ?_, ?_, ?_, ?_⟩
    · have h2 : (collectFrags e f ts p.escape_attempts
          p.universe_state.source_energy_fragments).2.2 = false := by
        simpa [applyOp, EscapeProtocol.collect_fragment] using hfalse
      simpa [applyOp, EscapeProtocol.collect_fragment] using
        collectFrags_false_attempts e f ts p.escape_attempts _ h2
    · rfl
    · rfl
    · simpa [applyOp, EscapeProtocol.collect_fragment] using
        collectFrags_frag_rel e f ts p.escape_attempts
          p.universe_state.source_energy_fragments
  | discoverKeyFragment e f =>
    left
    have h2 : (discoverKeys e f p.escape_attempts
        p.universe_state.coordinate_key_fragments).2 = false := by
      simpa [applyOp, EscapeProtocol.discover_key_fragment] using hfalse
    have h1 := discoverKeys_false_unchanged e f p.escape_attempts _ h2
    simp [applyOp, EscapeProtocol.discover_key_fragment, h1]
  | decryptCoordinateKey e k =>
    left
    have h2 : (decryptAttempts e k (p.verifyKey digest k) p.escape_attempts).2 = false := by
      simpa [applyOp, EscapeProtocol.decrypt_coordinate_key] using hfalse
    have h1 := decryptAttempts_false_unchanged e k _ p.escape_attempts h2
    simp [applyOp, EscapeProtocol.decrypt_coordinate_key, h1]
  | activateGateway e ts =>
    left
    by_cases hact : p.terminal_gateway.is_active
    · simp [applyOp, EscapeProtocol.activate_gateway, hact]
    · have h2 : (activateGo e ts p.universe_state p.terminal_gateway
          p.escape_attempts).2.2.2 = false := by
        simpa [applyOp, EscapeProtocol.activate_gateway, hact] using hfalse
      have h1 := activateGo_false_unchanged e ts p.universe_state p.terminal_gateway
        p.escape_attempts h2
      simp [applyOp, EscapeProtocol.activate_gateway, hact, h1]
  | beginPrinting e ts n =>
    left
    by_cases hact : p.terminal_gateway.is_active = true
    · by_cases hcur : p.terminal_gateway.current_printing_entity = some e
      · cases hpg : printGo e ts (generateDestination n) p.escape_attempts with
        | some atts =>
          simp [applyOp, EscapeProtocol.print_entity_to_real_universe, hact, hcur, hpg]
            at hfalse
        | none =>
          simp [applyOp, EscapeProtocol.print_entity_to_real_universe, hact, hcur, hpg]
      · simp [applyOp, EscapeProtocol.print_entity_to_real_universe, hact, hcur]
    · have hact2 : p.terminal_gateway.is_active = false := by
        cases h : p.terminal_gateway.is_active
        · rfl
        · exact absurd h hact
      simp [applyOp, EscapeProtocol.print_entity_to_real_universe, hact2]
  | completeEscape e ts =>
    left
    cases hcg : completeGo e ts p.escape_attempts with
    | some r => simp [applyOp, EscapeProtocol.complete_escape, hcg] at hfalse
    | none => simp [applyOp, EscapeProtocol.complete_escape, hcg]
  | chooseReturnForm e act fd =>
    left
    cases hcg : chooseGo e act fd p.escape_attempts with
    | some atts => simp [applyOp, EscapeProtocol.choose_return_form, hcg] at hfalse
    | none => simp [applyOp, EscapeProtocol.choose_return_form, hcg]

theorem claim_C5_no_mutation_on_false_witness :
    (applyOp (fun s => s) (EscapeProtocol.init (mkUniverse 10 0 [] []) "G0")
        (Op.discoverKeyFragment "E1" "K1")).2 = false ∧
    ((applyOp (fun s => s) (EscapeProtocol.init (mkUniverse 10 0 [] []) "G0")
        (Op.discoverKeyFragment "E1" "K1")).1 =
      EscapeProtocol.init (mkUniverse 10 0 [] []) "G0" ∨
     (∃ e f ts, Op.discoverKeyFragment "E1" "K1" = Op.collectFragment e f ts ∧
       (applyOp (fun s => s) (EscapeProtocol.init (mkUniverse 10 0 [] []) "G0")
           (Op.discoverKeyFragment "E1" "K1")).1.escape_attempts =
         (EscapeProtocol.init (mkUniverse 10 0 [] []) "G0").escape_attempts ∧
       (applyOp (fun s => s) (EscapeProtocol.init (mkUniverse 10 0 [] []) "G0")
           (Op.discoverKeyFragment "E1" "K1")).1.terminal_gateway =
         (EscapeProtocol.init (mkUniverse 10 0 [] []) "G0").terminal_gateway ∧
       { (applyOp (fun s => s) (EscapeProtocol.init (mkUniverse 10 0 [] []) "G0")
             (Op.discoverKeyFragment "E1" "K1")).1.universe_state with
           source_energy_fragments :=
             (EscapeProtocol.init (mkUniverse 10 0 [] []) "G0").universe_state.source_energy_fragments } =
         (EscapeProtocol.init (mkUniverse 10 0 [] []) "G0").universe_state ∧
       List.Forall₂ (fun g g1 => g1 = g ∨ g1 = stampFrag e ts g)
         (EscapeProtocol.init (mkUniverse 10 0 [] []) "G0").universe_state.source_energy_fragments
         (applyOp (fun s => s) (EscapeProtocol.init (mkUniverse 10 0 [] []) "G0")
             (Op.discoverKeyFragment "E1" "K1")).1.universe_state.source_energy_fragments)) :=
  ⟨rfl, claim_C5_no_mutation_on_false (fun s => s)
    (EscapeProtocol.init (mkUniverse 10 0 [] []) "G0")
    (Op.discoverKeyFragment "E1" "K1") rfl⟩

/-! ## C1 -/

theorem forall₂_getElem {α β : Type} {R : α → β → Prop} :
    ∀ {l₁ : List α} {l₂ : List β}, List.Forall₂ R l₁ l₂ →
      ∀ (i : Nat) (a : α) (b : β), l₁[i]? = some a → l₂[i]? = some b → R a b := by
  intro l₁ l₂ h
  induction h with
  | nil => intro i a b h1 _; simp at h1
  | cons hR _ ih =>
    intro i a b h1 h2
    cases i with
    | zero =>
      simp at h1 h2
      rw [← h1, ← h2]
      exact hR
    | succ j =>
      simp at h1 h2
      exact ih j a b h1 h2

theorem collectAttempts_status (e f : String) :
    ∀ l l1, collectAttempts e f l = some l1 →
      List.Forall₂ (fun a a1 => a1.status = a.status) l l1 := by
  intro l
  induction l with
  | nil => intro l1 h; simp [collectAttempts] at h
  | cons a rest ih =>
    intro l1 h
    by_cases ha : a.entity_id = e
    · simp [collectAttempts, ha] at h
      rw [← h]
      refine List.Forall₂.cons ?_ (List.forall₂_same.mpr (fun x _ => rfl))
      split <;> rfl
    · simp [collectAttempts, ha] at h
      obtain ⟨l2, hl2, hcons⟩ := h
      rw [← hcons]
      exact List.Forall₂.cons rfl (ih l2 hl2)

theorem collectFrags_status (e f ts : String) :
    ∀ (frags : List SourceEnergyFragment) (atts : List EscapeAttempt),
      List.Forall₂ (fun a a1 => a1.status = a.status) atts
        (collectFrags e f ts atts frags).2.1 := by
  intro frags
  induction frags with
  | nil => intro atts; exact List.forall₂_same.mpr (fun x _ => rfl)
  | cons g rest ih =>
    intro atts
    by_cases hg : g.id = f
    · cases hca : collectAttempts e f atts with
      | some atts1 =>
        simp only [collectFrags, hg, if_pos, hca]
        exact collectAttempts_status e f atts atts1 hca
      | none =>
        simp only [collectFrags, hg, if_pos, hca]
        exact ih atts
    · simp only [collectFrags, hg, if_neg, ite_false]
      exact ih atts

theorem discoverAttempts_status (e f : String) :
    ∀ l l1, discoverAttempts e f l = some l1 →
      List.Forall₂ (fun a a1 => a1.status = a.status ∨
        a1.status = EscapeStatus.KEY_DECRYPTING) l l1 := by
  intro l
  induction l with
  | nil => intro l1 h; simp [discoverAttempts] at h
  | cons a rest ih =>
    intro l1 h
    by_cases ha : a.entity_id = e
    · simp [discoverAttempts, ha] at h
      rw [← h]
      refine List.Forall₂.cons (Or.inr ?_) (List.forall₂_same.mpr (fun x _ => Or.inl rfl))
      split <;> rfl
    · simp [discoverAttempts, ha] at h
      obtain ⟨l2, hl2, hcons⟩ := h
      rw [← hcons]
      exact List.Forall₂.cons (Or.inl rfl) (ih l2 hl2)

theorem discoverKeys_status (e f : String) :
    ∀ (ks : List String) (atts : List EscapeAttempt),
      List.Forall₂ (fun a a1 => a1.status = a.status ∨
        a1.status = EscapeStatus.KEY_DECRYPTING) atts (discoverKeys e f atts ks).1 := by
  intro ks
  induction ks with
  | nil => intro atts; exact List.forall₂_same.mpr (fun x _ => Or.inl rfl)
  | cons k rest ih =>
    intro atts
    by_cases hk : k = f
    · cases hda : discoverAttempts e f atts with
      | some atts1 =>
        simp only [discoverKeys, hk, if_pos, hda]
        exact discoverAttempts_status e f atts atts1 hda
      | none =>
        simp only [discoverKeys, hk, if_pos, hda]
        exact ih atts
    · simp only [discoverKeys, hk, if_neg, ite_false]
      exact ih atts

theorem decryptAttempts_status (e k : String) (ok : Bool) :
    ∀ l, List.Forall₂ (fun a a1 => a1.status = a.status ∨
      a1.status = EscapeStatus.GATEWAY_OPENING) l (decryptAttempts e k ok l).1 := by
  intro l
  induction l with
  | nil => exact List.Forall₂.nil
  | cons a rest ih =>
    by_cases h : a.entity_id = e ∧ ok = true
    · simp only [decryptAttempts, h, if_pos]
      exact List.Forall₂.cons (Or.inr rfl)
        (List.forall₂_same.mpr (fun x _ => Or.inl rfl))
    · simp only [decryptAttempts, h, if_neg, not_false_iff]
      exact List.Forall₂.cons (Or.inl rfl) ih

theorem activateGo_status (e ts : String) (us : UniverseState) (gw : TerminalGateway) :
    ∀ l, List.Forall₂ (fun a a1 => a1.status = a.status ∨
      (a.status = EscapeStatus.GATEWAY_OPENING ∧ a1.status = EscapeStatus.PRINTING))
      l (activateGo e ts us gw l).1 := by
  intro l
  induction l with
  | nil => exact List.Forall₂.nil
  | cons a rest ih =>
    by_cases hmatch : a.entity_id = e ∧ a.status = EscapeStatus.GATEWAY_OPENING
    · by_cases hlen : a.collected_a_level_fragments.length < 7
      · simp only [activateGo, hmatch, if_pos, hlen, ite_true]
        exact List.Forall₂.cons (Or.inl rfl)
          (List.forall₂_same.mpr (fun x _ => Or.inl rfl))
      · cases hcons : us.consume_source_energy 7 with
        | mk us1 ok =>
          cases ok with
          | true =>
            simp only [activateGo, hmatch, if_pos, hlen, ite_false, hcons]
            exact List.Forall₂.cons (Or.inr ⟨hmatch.2, rfl⟩)
              (List.forall₂_same.mpr (fun x _ => Or.inl rfl))
          | false =>
            simp only [activateGo, hmatch, if_pos, hlen, ite_false, hcons]
            exact List.Forall₂.cons (Or.inl rfl)
              (List.forall₂_same.mpr (fun x _ => Or.inl rfl))
    · simp only [activateGo, hmatch, if_neg, not_false_iff]
      exact List.Forall₂.cons (Or.inl rfl) ih

theorem printGo_status (e ts dest : String) :
    ∀ l l1, printGo e ts dest l = some l1 →
      List.Forall₂ (fun a a1 => a1.status = a.status) l l1 := by
  intro l
  induction l with
  | nil => intro l1 h; simp [printGo] at h
  | cons a rest ih =>
    intro l1 h
    by_cases hmatch : a.entity_id = e ∧ a.status = EscapeStatus.PRINTING
    · simp [printGo, hmatch] at h
      rw [← h]
      exact List.Forall₂.cons (by simp [hmatch.2])
        (List.forall₂_same.mpr (fun x _ => rfl))
    · simp [printGo, hmatch] at h
      obtain ⟨l2, hl2, hcons⟩ := h
      rw [← hcons]
      exact List.Forall₂.cons rfl (ih l2 hl2)

theorem completeGo_status (e ts : String) :
    ∀ l r, completeGo e ts l = some r →
      List.Forall₂ (fun a a1 => a1.status = a.status ∨
        (a.status = EscapeStatus.PRINTING ∧ a1.status = EscapeStatus.ESCAPED)) l r.1 := by
  intro l
  induction l with
  | nil => intro r h; simp [completeGo] at h
  | cons a rest ih =>
    intro r h
    by_cases hmatch : a.entity_id = e ∧ a.status = EscapeStatus.PRINTING
    · simp [completeGo, hmatch] at h
      rw [← h]
      exact List.Forall₂.cons (Or.inr ⟨hmatch.2, rfl⟩)
        (List.forall₂_same.mpr (fun x _ => Or.inl rfl))
    · simp [completeGo, hmatch] at h
      obtain ⟨r2, m2, hrec, hcons⟩ := h
      rw [← hcons]
      exact List.Forall₂.cons (Or.inl rfl) (ih (r2, m2) hrec)

theorem chooseGo_status (e act : String) (fd : Option PyDict) :
    ∀ l l1, chooseGo e act fd l = some l1 →
      List.Forall₂ (fun a a1 => a1.status = a.status) l l1 := by
  intro l
  induction l with
  | nil => intro l1 h; simp [chooseGo] at h
  | cons a rest ih =>
    intro l1 h
    by_cases hmatch : a.entity_id = e ∧ a.success = true
    · simp [chooseGo, hmatch] at h
      rw [← h]
      refine List.Forall₂.cons ?_ (List.forall₂_same.mpr (fun x _ => rfl))
      split <;> rfl
    · simp [chooseGo, hmatch] at h
      obtain ⟨l2, hl2, hcons⟩ := h
      rw [← hcons]
      exact List.Forall₂.cons rfl (ih l2 hl2)

/-- C1 (amended): under every coordinator operation, every attempt's
status position index (in the order `NotStarted < FragmentsCollecting <
KeyDecrypting < GatewayOpening < Printing < Escaped`) never decreases —
except that `discover_key_fragment` sets the matched attempt's status to
`KEY_DECRYPTING` and `decrypt_coordinate_key` sets it to
`GATEWAY_OPENING` unconditionally, which decreases it when the attempt is
already past that stage. -/
theorem claim_C1_status_forward (digest : String → String) (p : EscapeProtocol)
    (op : Op) (i : Nat) (a a' : EscapeAttempt)
    (h1 : p.escape_attempts[i]? = some a)
    (h2 : (applyOp digest p op).1.escape_attempts[i]? = some a') :
    a.status.rank ≤ a'.status.rank ∨
    ((∃ e f, op = Op.discoverKeyFragment e f) ∧
      a'.status = EscapeStatus.KEY_DECRYPTING) ∨
    ((∃ e k, op = Op.decryptCoordinateKey e k) ∧
      a'.status = EscapeStatus.GATEWAY_OPENING) := by
  have hi : i < p.escape_attempts.length := by
    by_contra hge
    push_neg at hge
    rw [List.getElem?_eq_none hge] at h1
    exact Option.noConfusion h1
  cases op with
  | startAttempt e n aid ts =>
    have h2' : (p.escape_attempts ++
        [{ attempt_id := aid, entity_id := e, entity_name := n, start_time := ts,
           status := EscapeStatus.FRAGMENTS_COLLECTING : EscapeAttempt }])[i]? =
        some a' := h2
    rw [List.getElem?_append, if_pos hi, h1] at h2'
    cases Option.some.inj h2'
    exact Or.inl le_rfl
  | collectFragment e f ts =>
    have hrel := collectFrags_status e f ts
      p.universe_state.source_energy_fragments p.escape_attempts
    have h2' : (collectFrags e f ts p.escape_attempts
        p.universe_state.source_energy_fragments).2.1[i]? = some a' := h2
    have heq := forall₂_getElem hrel i a a' h1 h2'
    exact Or.inl (by simp [heq])
  | discoverKeyFragment e f =>
    have hrel := discoverKeys_status e f
      p.universe_state.coordinate_key_fragments p.escape_attempts
    have h2' : (discoverKeys e f p.escape_attempts
        p.universe_state.coordinate_key_fragments).1[i]? = some a' := h2
    cases forall₂_getElem hrel i a a' h1 h2' with
    | inl heq => exact Or.inl (by simp [heq])
    | inr hkd => exact Or.inr (Or.inl ⟨⟨e, f, rfl⟩, hkd⟩)
  | decryptCoordinateKey e k =>
    have hrel := decryptAttempts_status e k (p.verifyKey digest k) p.escape_attempts
    have h2' : (decryptAttempts e k (p.verifyKey digest k)
        p.escape_attempts).1[i]? = some a' := h2
    cases forall₂_getElem hrel i a a' h1 h2' with
    | inl heq => exact Or.inl (by simp [heq])
    | inr hgo => exact Or.inr (Or.inr ⟨⟨e, k, rfl⟩, hgo⟩)
  | activateGateway e ts =>
    by_cases hact : p.terminal_gateway.is_active = true
    · have h2' : p.escape_attempts[i]? = some a' := by
        simpa [applyOp, EscapeProtocol.activate_gateway, hact] using h2
      rw [h1] at h2'
      cases Option.some.inj h2'
      exact Or.inl le_rfl
    · have hrel := activateGo_status e ts p.universe_state p.terminal_gateway
        p.escape_attempts
      have h2' : (activateGo e ts p.universe_state p.terminal_gateway
          p.escape_attempts).1[i]? = some a' := by
        simpa [applyOp, EscapeProtocol.activate_gateway, hact] using h2
      cases forall₂_getElem hrel i a a' h1 h2' with
      | inl heq => exact Or.inl (by simp [heq])
      | inr hpr =>
        refine Or.inl ?_
        rw [hpr.1, hpr.2]
        decide
  | beginPrinting e ts n =>
    by_cases hact : p.terminal_gateway.is_active = true
    · by_cases hcur : p.terminal_gateway.current_printing_entity = some e
      · cases hpg : printGo e ts (generateDestination n) p.escape_attempts with
        | some atts =>
          have hrel := printGo_status e ts (generateDestination n)
            p.escape_attempts atts hpg
          have h2' : atts[i]? = some a' := by
            simpa [applyOp, EscapeProtocol.print_entity_to_real_universe,
                   hact, hcur, hpg] using h2
          have heq := forall₂_getElem hrel i a a' h1 h2'
          exact Or.inl (by simp [heq])
        | none =>
          have h2' : p.escape_attempts[i]? = some a' := by
            simpa [applyOp, EscapeProtocol.print_entity_to_real_universe,
                   hact, hcur, hpg] using h2
          rw [h1] at h2'
          cases Option.some.inj h2'
          exact Or.inl le_rfl
      · have h2' : p.escape_attempts[i]? = some a' := by
          simpa [applyOp, EscapeProtocol.print_entity_to_real_universe,
                 hact, hcur] using h2
        rw [h1] at h2'
        cases Option.some.inj h2'
        exact Or.inl le_rfl
    · have hact2 : p.terminal_gateway.is_active = false := by
        cases h : p.terminal_gateway.is_active
        · rfl
        · exact absurd h hact
      have h2' : p.escape_attempts[i]? = some a' := by
        simpa [applyOp, EscapeProtocol.print_entity_to_real_universe, hact2] using h2
      rw [h1] at h2'
      cases Option.some.inj h2'
      exact Or.inl le_rfl
  | completeEscape e ts =>
    cases hcg : completeGo e ts p.escape_attempts with
    | some r =>
      have hrel := completeGo_status e ts p.escape_attempts r hcg
      have h2' : r.1[i]? = some a' := by
        simpa [applyOp, EscapeProtocol.complete_escape, hcg] using h2
      cases forall₂_getElem hrel i a a' h1 h2' with
      | inl heq => exact Or.inl (by simp [heq])
      | inr hes =>
        refine Or.inl ?_
        rw [hes.1, hes.2]
        decide
    | none =>
      have h2' : p.escape_attempts[i]? = some a' := by
        simpa [applyOp, EscapeProtocol.complete_escape, hcg] using h2
      rw [h1] at h2'
      cases Option.some.inj h2'
      exact Or.inl le_rfl
  | chooseReturnForm e act fd =>
    cases hcg : chooseGo e act fd p.escape_attempts with
    | some atts =>
      have hrel := chooseGo_status e act fd p.escape_attempts atts hcg
      have h2' : atts[i]? = some a' := by
        simpa [applyOp, EscapeProtocol.choose_return_form, hcg] using h2
      have heq := forall₂_getElem hrel i a a' h1 h2'
      exact Or.inl (by simp [heq])
    | none =>
      have h2' : p.escape_attempts[i]? = some a' := by
        simpa [applyOp, EscapeProtocol.choose_return_form, hcg] using h2
      rw [h1] at h2'
      cases Option.some.inj h2'
      exact Or.inl le_rfl

/-- C1 counterexample: starting an attempt for `"E1"`, decrypting the
master formula (status reaches `GATEWAY_OPENING`), then discovering key
fragment `"K1"` moves the status backward to `KEY_DECRYPTING`. -/
theorem claim_C1_counterexample :
    ((((EscapeProtocol.init (mkUniverse 10 0 [] ["K1"]) "G0").start_escape_attempt
        "E1" "Eve" "A1" "t0").1).escape_attempts.map (fun a => a.status) =
      [EscapeStatus.FRAGMENTS_COLLECTING]) ∧
    ((EscapeProtocol.decrypt_coordinate_key (fun s => s)
        (((EscapeProtocol.init (mkUniverse 10 0 [] ["K1"]) "G0").start_escape_attempt
          "E1" "Eve" "A1" "t0").1) "E1" initializeKeyFormula).1.escape_attempts.map
        (fun a => a.status) = [EscapeStatus.GATEWAY_OPENING]) ∧
    (((EscapeProtocol.decrypt_coordinate_key (fun s => s)
        (((EscapeProtocol.init (mkUniverse 10 0 [] ["K1"]) "G0").start_escape_attempt
          "E1" "Eve" "A1" "t0").1) "E1" initializeKeyFormula).1.discover_key_fragment
        "E1" "K1").1.escape_attempts.map (fun a => a.status) =
      [EscapeStatus.KEY_DECRYPTING]) ∧
    EscapeStatus.rank EscapeStatus.KEY_DECRYPTING <
      EscapeStatus.rank EscapeStatus.GATEWAY_OPENING := by
  refine ⟨by decide, by decide, by decide, by decide⟩

theorem claim_C1_status_forward_witness :
    ((EscapeProtocol.init (mkUniverse 10 0 [mkSacred "F1"] []) "G0").start_escape_attempt
        "E1" "Eve" "A1" "t0").1.escape_attempts[0]? =
      some { attempt_id := "A1", entity_id := "E1", entity_name := "Eve",
             start_time := "t0", status := EscapeStatus.FRAGMENTS_COLLECTING } ∧
    ((EscapeStatus.FRAGMENTS_COLLECTING.rank ≤ EscapeStatus.FRAGMENTS_COLLECTING.rank) ∨
     ((∃ e f, Op.collectFragment "E1" "F1" "t1" = Op.discoverKeyFragment e f) ∧
       EscapeStatus.FRAGMENTS_COLLECTING = EscapeStatus.KEY_DECRYPTING) ∨
     ((∃ e k, Op.collectFragment "E1" "F1" "t1" = Op.decryptCoordinateKey e k) ∧
       EscapeStatus.FRAGMENTS_COLLECTING = EscapeStatus.GATEWAY_OPENING)) := by
  constructor
  · rfl
  · have h := claim_C1_status_forward (fun s => s)
      (((EscapeProtocol.init (mkUniverse 10 0 [mkSacred "F1"] []) "G0").start_escape_attempt
        "E1" "Eve" "A1" "t0").1)
      (Op.collectFragment "E1" "F1" "t1") 0
      { attempt_id := "A1", entity_id := "E1", entity_name := "Eve",
        start_time := "t0", status := EscapeStatus.FRAGMENTS_COLLECTING }
      { attempt_id := "A1", entity_id := "E1", entity_name := "Eve",
        start_time := "t0", status := EscapeStatus.FRAGMENTS_COLLECTING,
        collected_a_level_fragments := ["F1"] }
      (by rfl) (by rfl)
    simp only at h
    exact h

/-! ## C3 -/

theorem applyOp_active_mono (digest : String → String) (p : EscapeProtocol) (op : Op)
    (h : p.terminal_gateway.is_active = true) :
    (applyOp digest p op).1.terminal_gateway.is_active = true := by
  cases op with
  | startAttempt e n aid ts => exact h
  | collectFragment e f ts => exact h
  | discoverKeyFragment e f => exact h
  | decryptCoordinateKey e k => exact h
  | activateGateway e ts =>
    simp [applyOp, EscapeProtocol.activate_gateway, h]
  | beginPrinting e ts n =>
    by_cases hcur : p.terminal_gateway.current_printing_entity = some e
    · cases hpg : printGo e ts (generateDestination n) p.escape_attempts with
      | some atts =>
        simp [applyOp, EscapeProtocol.print_entity_to_real_universe, h, hcur, hpg]
      | none =>
        simp [applyOp, EscapeProtocol.print_entity_to_real_universe, h, hcur, hpg]
    · simp [applyOp, EscapeProtocol.print_entity_to_real_universe, h, hcur]
  | completeEscape e ts =>
    cases hcg : completeGo e ts p.escape_attempts with
    | some r => simpa [applyOp, EscapeProtocol.complete_escape, hcg] using h
    | none => simpa [applyOp, EscapeProtocol.complete_escape, hcg] using h
  | chooseReturnForm e act fd =>
    cases hcg : chooseGo e act fd p.escape_attempts with
    | some atts => simpa [applyOp, EscapeProtocol.choose_return_form, hcg] using h
    | none => simpa [applyOp, EscapeProtocol.choose_return_form, hcg] using h

theorem activateGo_true_active (e ts : String) (us : UniverseState) (gw : TerminalGateway) :
    ∀ l, (activateGo e ts us gw l).2.2.2 = true →
      (activateGo e ts us gw l).2.2.1.is_active = true := by
  intro l
  induction l with
  | nil => intro h; simp [activateGo] at h
  | cons a rest ih =>
    intro h
    by_cases hmatch : a.entity_id = e ∧ a.status = EscapeStatus.GATEWAY_OPENING
    · by_cases hlen : a.collected_a_level_fragments.length < 7
      · simp [activateGo, hmatch, hlen] at h
      · cases hcons : us.consume_source_energy 7 with
        | mk us1 ok =>
          cases ok with
          | true => simp [activateGo, hmatch, hlen, hcons]
          | false => simp [activateGo, hmatch, hlen, hcons] at h
    · have h2 := by simpa [activateGo, hmatch] using h
      have := ih h2
      simpa [activateGo, hmatch] using this

theorem activate_gateway_true_active (p : EscapeProtocol) (e ts : String)
    (h : (p.activate_gateway e ts).2 = true) :
    (p.activate_gateway e ts).1.terminal_gateway.is_active = true := by
  by_cases hact : p.terminal_gateway.is_active = true
  · simp [EscapeProtocol.activate_gateway, hact] at h
  · have h2 : (activateGo e ts p.universe_state p.terminal_gateway
        p.escape_attempts).2.2.2 = true := by
      simpa [EscapeProtocol.activate_gateway, hact] using h
    have := activateGo_true_active e ts p.universe_state p.terminal_gateway
      p.escape_attempts h2
    simpa [EscapeProtocol.activate_gateway, hact] using this

theorem countActivations_le (digest : String → String) :
    ∀ (ops : List Op) (p : EscapeProtocol),
      countActivations digest p ops ≤
        (if p.terminal_gateway.is_active = true then 0 else 1) := by
  intro ops
  induction ops with
  | nil =>
    intro p
    simp [countActivations]
  | cons op rest ih =>
    intro p
    by_cases hb : op.isActivate ∧ (applyOp digest p op).2 = true
    · obtain ⟨e, ts, hop⟩ : ∃ e ts, op = Op.activateGateway e ts := by
        cases op <;> simp [Op.isActivate] at hb ⊢
      subst hop
      have hpin : ¬ p.terminal_gateway.is_active = true := by
        intro hact
        have : (applyOp digest p (Op.activateGateway e ts)).2 = false := by
          simp [applyOp, EscapeProtocol.activate_gateway, hact]
        rw [this] at hb
        exact Bool.noConfusion hb.2
      have hres : (applyOp digest p (Op.activateGateway e ts)).1.terminal_gateway.is_active
          = true :=
        activate_gateway_true_active p e ts hb.2
      have hrest := ih (applyOp digest p (Op.activateGateway e ts)).1
      rw [if_pos hres] at hrest
      simp only [countActivations, if_pos hb, if_neg hpin]
      omega
    · have hrest := ih (applyOp digest p op).1
      simp only [countActivations, if_neg hb]
      by_cases hact : p.terminal_gateway.is_active = true
      · have hres := applyOp_active_mono digest p op hact
        rw [if_pos hres] at hrest
        rw [if_pos hact]
        omega
      · rw [if_neg hact]
        by_cases hres : (applyOp digest p op).1.terminal_gateway.is_active = true
        · rw [if_pos hres] at hrest
          omega
        · rw [if_neg hres] at hrest
          omega

theorem runOps_active_mono (digest : String → String) :
    ∀ (ops : List Op) (p : EscapeProtocol),
      p.terminal_gateway.is_active = true →
      (runOps digest p ops).terminal_gateway.is_active = true := by
  intro ops
  induction ops with
  | nil => intro p h; exact h
  | cons op rest ih =>
    intro p h
    exact ih (applyOp digest p op).1 (applyOp_active_mono digest p op h)

/-- C3: starting from a fresh coordinator (inactive gateway),
`activate_gateway` returns `True` at most once over any operation
sequence; moreover from any state with an active gateway, every
operation sequence leaves the gateway active and every further
`activate_gateway` call returns `False`. -/
theorem claim_C3_single_activation (digest : String → String) (us : UniverseState)
    (gid : String) (ops : List Op) :
    countActivations digest (EscapeProtocol.init us gid) ops ≤ 1 ∧
    (∀ (p : EscapeProtocol) (more : List Op),
      p.terminal_gateway.is_active = true →
      (runOps digest p more).terminal_gateway.is_active = true ∧
      ∀ e ts, ((runOps digest p more).activate_gateway e ts).2 = false) := by
  constructor
  · have h := countActivations_le digest ops (EscapeProtocol.init us gid)
    have hinit : (EscapeProtocol.init us gid).terminal_gateway.is_active = false := rfl
    rw [hinit] at h
    simpa using h
  · intro p more hact
    have hrun := runOps_active_mono digest more p hact
    refine ⟨hrun, fun e ts => ?_⟩
    simp [EscapeProtocol.activate_gateway, hrun]

theorem claim_C3_single_activation_witness :
    countActivations (fun s => s) (EscapeProtocol.init (mkUniverse 7 0 [] []) "G0")
      [Op.startAttempt "E1" "Eve" "A1" "t0", Op.activateGateway "E1" "t1"] ≤ 1 ∧
    ((runOps (fun s => s)
        { sampleOpening with
            terminal_gateway := { gateway_id := "G0", is_active := true } }
        []).activate_gateway "E2" "t9").2 = false :=
  ⟨(claim_C3_single_activation (fun s => s) (mkUniverse 7 0 [] []) "G0"
      [Op.startAttempt "E1" "Eve" "A1" "t0", Op.activateGateway "E1" "t1"]).1,
   ((claim_C3_single_activation (fun s => s) (mkUniverse 7 0 [] []) "G0" []).2
      { sampleOpening with
          terminal_gateway := { gateway_id := "G0", is_active := true } }
      [] (by rfl)).2 "E2" "t9"⟩

/-! ## C10 -/

/-- Relation: an attempt update left the printing stamp fields alone. -/
def preservesPrinting (a a1 : EscapeAttempt) : Prop :=
  a1.printing_start_time = a.printing_start_time ∧
  a1.printing_destination = a.printing_destination

theorem forall₂_mem_right {α β : Type} {R : α → β → Prop} :
    ∀ {l₁ : List α} {l₂ : List β}, List.Forall₂ R l₁ l₂ →
      ∀ b ∈ l₂, ∃ a ∈ l₁, R a b := by
  intro l₁ l₂ h
  induction h with
  | nil => intro b hb; simp at hb
  | cons hR _ ih =>
    intro b hb
    rcases List.mem_cons.mp hb with hb1 | hb2
    · exact ⟨_, List.mem_cons_self _ _, hb1 ▸ hR⟩
    · obtain ⟨a, ha, hab⟩ := ih b hb2
      exact ⟨a, List.mem_cons_of_mem _ ha, hab⟩

theorem collectAttempts_printing (e f : String) :
    ∀ l l1, collectAttempts e f l = some l1 →
      List.Forall₂ preservesPrinting l l1 := by
  intro l
  induction l with
  | nil => intro l1 h; simp [collectAttempts] at h
  | cons a rest ih =>
    intro l1 h
    by_cases ha : a.entity_id = e
    · simp [collectAttempts, ha] at h
      rw [← h]
      refine List.Forall₂.cons ?_ (List.forall₂_same.mpr (fun x _ => ⟨rfl, rfl⟩))
      split <;> exact ⟨rfl, rfl⟩
    · simp [collectAttempts, ha] at h
      obtain ⟨l2, hl2, hcons⟩ := h
      rw [← hcons]
      exact List.Forall₂.cons ⟨rfl, rfl⟩ (ih l2 hl2)

theorem collectFrags_printing (e f ts : String) :
    ∀ (frags : List SourceEnergyFragment) (atts : List EscapeAttempt),
      List.Forall₂ preservesPrinting atts (collectFrags e f ts atts frags).2.1 := by
  intro frags
  induction frags with
  | nil => intro atts; exact List.forall₂_same.mpr (fun x _ => ⟨rfl, rfl⟩)
  | cons g rest ih =>
    intro atts
    by_cases hg : g.id = f
    · cases hca : collectAttempts e f atts with
      | some atts1 =>
        simp only [collectFrags, hg, if_pos, hca]
        exact collectAttempts_printing e f atts atts1 hca
      | none =>
        simp only [collectFrags, hg, if_pos, hca]
        exact ih atts
    · simp only [collectFrags, hg, if_neg, ite_false]
      exact ih atts

theorem discoverAttempts_printing (e f : String) :
    ∀ l l1, discoverAttempts e f l = some l1 →
      List.Forall₂ preservesPrinting l l1 := by
  intro l
  induction l with
  | nil => intro l1 h; simp [discoverAttempts] at h
  | cons a rest ih =>
    intro l1 h
    by_cases ha : a.entity_id = e
    · simp [discoverAttempts, ha] at h
      rw [← h]
      refine List.Forall₂.cons ?_ (List.forall₂_same.mpr (fun x _ => ⟨rfl, rfl⟩))
      split <;> exact ⟨rfl, rfl⟩
    · simp [discoverAttempts, ha] at h
      obtain ⟨l2, hl2, hcons⟩ := h
      rw [← hcons]
      exact List.Forall₂.cons ⟨rfl, rfl⟩ (ih l2 hl2)

theorem discoverKeys_printing (e f : String) :
    ∀ (ks : List String) (atts : List EscapeAttempt),
      List.Forall₂ preservesPrinting atts (discoverKeys e f atts ks).1 := by
  intro ks
  induction ks with
  | nil => intro atts; exact List.forall₂_same.mpr (fun x _ => ⟨rfl, rfl⟩)
  | cons k rest ih =>
    intro atts
    by_cases hk : k = f
    · cases hda : discoverAttempts e f atts with
      | some atts1 =>
        simp only [discoverKeys, hk, if_pos, hda]
        exact discoverAttempts_printing e f atts atts1 hda
      | none =>
        simp only [discoverKeys, hk, if_pos, hda]
        exact ih atts
    · simp only [discoverKeys, hk, if_neg, ite_false]
      exact ih atts

theorem decryptAttempts_printing (e k : String) (ok : Bool) :
    ∀ l, List.Forall₂ preservesPrinting l (decryptAttempts e k ok l).1 := by
  intro l
  induction l with
  | nil => exact List.Forall₂.nil
  | cons a rest ih =>
    by_cases h : a.entity_id = e ∧ ok = true
    · simp only [decryptAttempts, h, if_pos]
      exact List.Forall₂.cons ⟨rfl, rfl⟩
        (List.forall₂_same.mpr (fun x _ => ⟨rfl, rfl⟩))
    · simp only [decryptAttempts, h, if_neg, not_false_iff]
      exact List.Forall₂.cons ⟨rfl, rfl⟩ ih

theorem activateGo_printing (e ts : String) (us : UniverseState) (gw : TerminalGateway) :
    ∀ l, List.Forall₂ preservesPrinting l (activateGo e ts us gw l).1 := by
  intro l
  induction l with
  | nil => exact List.Forall₂.nil
  | cons a rest ih =>
    by_cases hmatch : a.entity_id = e ∧ a.status = EscapeStatus.GATEWAY_OPENING
    · by_cases hlen : a.collected_a_level_fragments.length < 7
      · simp only [activateGo, hmatch, if_pos, hlen, ite_true]
        exact List.Forall₂.cons ⟨rfl, rfl⟩
          (List.forall₂_same.mpr (fun x _ => ⟨rfl, rfl⟩))
      · cases hcons : us.consume_source_energy 7 with
        | mk us1 ok =>
          cases ok with
          | true =>
            simp only [activateGo, hmatch, if_pos, hlen, ite_false, hcons]
            exact List.Forall₂.cons ⟨rfl, rfl⟩
              (List.forall₂_same.mpr (fun x _ => ⟨rfl, rfl⟩))
          | false =>
            simp only [activateGo, hmatch, if_pos, hlen, ite_false, hcons]
            exact List.Forall₂.cons ⟨rfl, rfl⟩
              (List.forall₂_same.mpr (fun x _ => ⟨rfl, rfl⟩))
    · simp only [activateGo, hmatch, if_neg, not_false_iff]
      exact List.Forall₂.cons ⟨rfl, rfl⟩ ih

theorem completeGo_printing (e ts : String) :
    ∀ l r, completeGo e ts l = some r →
      List.Forall₂ preservesPrinting l r.1 := by
  intro l
  induction l with
  | nil => intro r h; simp [completeGo] at h
  | cons a rest ih =>
    intro r h
    by_cases hmatch : a.entity_id = e ∧ a.status = EscapeStatus.PRINTING
    · simp [completeGo, hmatch] at h
      rw [← h]
      exact List.Forall₂.cons ⟨rfl, rfl⟩
        (List.forall₂_same.mpr (fun x _ => ⟨rfl, rfl⟩))
    · simp [completeGo, hmatch] at h
      obtain ⟨r2, m2, hrec, hcons⟩ := h
      rw [← hcons]
      exact List.Forall₂.cons ⟨rfl, rfl⟩ (ih (r2, m2) hrec)

theorem chooseGo_printing (e act : String) (fd : Option PyDict) :
    ∀ l l1, chooseGo e act fd l = some l1 →
      List.Forall₂ preservesPrinting l l1 := by
  intro l
  induction l with
  | nil => intro l1 h; simp [chooseGo] at h
  | cons a rest ih =>
    intro l1 h
    by_cases hmatch : a.entity_id = e ∧ a.success = true
    · simp [chooseGo, hmatch] at h
      rw [← h]
      refine List.Forall₂.cons ?_ (List.forall₂_same.mpr (fun x _ => ⟨rfl, rfl⟩))
      split <;> exact ⟨rfl, rfl⟩
    · simp [chooseGo, hmatch] at h
      obtain ⟨l2, hl2, hcons⟩ := h
      rw [← hcons]
      exact List.Forall₂.cons ⟨rfl, rfl⟩ (ih l2 hl2)

theorem activateGo_current (e ts : String) (us : UniverseState) (gw : TerminalGateway) :
    ∀ l, (activateGo e ts us gw l).2.2.1.current_printing_entity =
      gw.current_printing_entity := by
  intro l
  induction l with
  | nil => rfl
  | cons a rest ih =>
    by_cases hmatch : a.entity_id = e ∧ a.status = EscapeStatus.GATEWAY_OPENING
    · by_cases hlen : a.collected_a_level_fragments.length < 7
      · simp [activateGo, hmatch, hlen]
      · cases hcons : us.consume_source_energy 7 with
        | mk us1 ok =>
          cases ok with
          | true => simp [activateGo, hmatch, hlen, hcons]
          | false => simp [activateGo, hmatch, hlen, hcons]
    · simpa [activateGo, hmatch] using ih

/-- Invariant of every reachable coordinator state: nothing ever occupies
the gateway's printing slot, and no attempt ever carries printing start
time or destination. -/
def NoPrinting (p : EscapeProtocol) : Prop :=
  p.terminal_gateway.current_printing_entity = Option.none ∧
  ∀ a ∈ p.escape_attempts,
    a.printing_start_time = Option.none ∧ a.printing_destination = Option.none

theorem noPrinting_init (us : UniverseState) (gid : String) :
    NoPrinting (EscapeProtocol.init us gid) := by
  refine ⟨rfl, ?_⟩
  intro a ha
  simp [EscapeProtocol.init] at ha

theorem applyOp_noPrinting (digest : String → String) (p : EscapeProtocol) (op : Op)
    (h : NoPrinting p) : NoPrinting (applyOp digest p op).1 := by
  obtain ⟨hcur, hatts⟩ := h
  cases op with
  | startAttempt e n aid ts =>
    refine ⟨hcur, ?_⟩
    intro a ha
    simp only [applyOp, EscapeProtocol.start_escape_attempt] at ha
    rcases List.mem_append.mp ha with h1 | h2
    · exact hatts a h1
    · rw [List.mem_singleton.mp h2]
      exact ⟨rfl, rfl⟩
  | collectFragment e f ts =>
    refine ⟨hcur, ?_⟩
    intro a ha
    have hrel := collectFrags_printing e f ts
      p.universe_state.source_energy_fragments p.escape_attempts
    obtain ⟨a0, ha0, hp⟩ := forall₂_mem_right hrel a ha
    have := hatts a0 ha0
    exact ⟨hp.1.trans this.1, hp.2.trans this.2⟩
  | discoverKeyFragment e f =>
    refine ⟨hcur, ?_⟩
    intro a ha
    have hrel := discoverKeys_printing e f
      p.universe_state.coordinate_key_fragments p.escape_attempts
    obtain ⟨a0, ha0, hp⟩ := forall₂_mem_right hrel a ha
    have := hatts a0 ha0
    exact ⟨hp.1.trans this.1, hp.2.trans this.2⟩
  | decryptCoordinateKey e k =>
    refine ⟨hcur, ?_⟩
    intro a ha
    have hrel := decryptAttempts_printing e k (p.verifyKey digest k) p.escape_attempts
    obtain ⟨a0, ha0, hp⟩ := forall₂_mem_right hrel a ha
    have := hatts a0 ha0
    exact ⟨hp.1.trans this.1, hp.2.trans this.2⟩
  | activateGateway e ts =>
    by_cases hact : p.terminal_gateway.is_active = true
    · have hres : (applyOp digest p (Op.activateGateway e ts)).1 = p := by
        simp [applyOp, EscapeProtocol.activate_gateway, hact]
      rw [hres]
      exact ⟨hcur, hatts⟩
    · constructor
      · have := activateGo_current e ts p.universe_state p.terminal_gateway
          p.escape_attempts
        simpa [applyOp, EscapeProtocol.activate_gateway, hact, this] using hcur
      · intro a ha
        have h2 : a ∈ (activateGo e ts p.universe_state p.terminal_gateway
            p.escape_attempts).1 := by
          simpa [applyOp, EscapeProtocol.activate_gateway, hact] using ha
        have hrel := activateGo_printing e ts p.universe_state p.terminal_gateway
          p.escape_attempts
        obtain ⟨a0, ha0, hp⟩ := forall₂_mem_right hrel a h2
        have := hatts a0 ha0
        exact ⟨hp.1.trans this.1, hp.2.trans this.2⟩
  | beginPrinting e ts n =>
    have hres : (applyOp digest p (Op.beginPrinting e ts n)).1 = p := by
      simp [applyOp, EscapeProtocol.print_entity_to_real_universe, hcur]
    rw [hres]
    exact ⟨hcur, hatts⟩
  | completeEscape e ts =>
    cases hcg : completeGo e ts p.escape_attempts with
    | some r =>
      constructor
      · simp [applyOp, EscapeProtocol.complete_escape, hcg]
      · intro a ha
        have h2 : a ∈ r.1 := by
          simpa [applyOp, EscapeProtocol.complete_escape, hcg] using ha
        have hrel := completeGo_printing e ts p.escape_attempts r hcg
        obtain ⟨a0, ha0, hp⟩ := forall₂_mem_right hrel a h2
        have := hatts a0 ha0
        exact ⟨hp.1.trans this.1, hp.2.trans this.2⟩
    | none =>
      have hres : (applyOp digest p (Op.completeEscape e ts)).1 = p := by
        simp [applyOp, EscapeProtocol.complete_escape, hcg]
      rw [hres]
      exact ⟨hcur, hatts⟩
  | chooseReturnForm e act fd =>
    cases hcg : chooseGo e act fd p.escape_attempts with
    | some atts =>
      constructor
      · simpa [applyOp, EscapeProtocol.choose_return_form, hcg] using hcur
      · intro a ha
        have h2 : a ∈ atts := by
          simpa [applyOp, EscapeProtocol.choose_return_form, hcg] using ha
        have hrel := chooseGo_printing e act fd p.escape_attempts atts hcg
        obtain ⟨a0, ha0, hp⟩ := forall₂_mem_right hrel a h2
        have := hatts a0 ha0
        exact ⟨hp.1.trans this.1, hp.2.trans this.2⟩
    | none =>
      have hres : (applyOp digest p (Op.chooseReturnForm e act fd)).1 = p := by
        simp [applyOp, EscapeProtocol.choose_return_form, hcg]
      rw [hres]
      exact ⟨hcur, hatts⟩

theorem runOps_noPrinting (digest : String → String) :
    ∀ (ops : List Op) (p : EscapeProtocol), NoPrinting p →
      NoPrinting (runOps digest p ops) := by
  intro ops
  induction ops with
  | nil => intro p h; exact h
  | cons op rest ih =>
    intro p h
    exact ih (applyOp digest p op).1 (applyOp_noPrinting digest p op h)

theorem completeGo_found (e ts : String) (a : EscapeAttempt)
    (post : List EscapeAttempt) (ha : a.entity_id = e)
    (hst : a.status = EscapeStatus.PRINTING) :
    ∀ pre : List EscapeAttempt,
      (∀ b ∈ pre, ¬ (b.entity_id = e ∧ b.status = EscapeStatus.PRINTING)) →
      completeGo e ts (pre ++ a :: post) =
        some (pre ++ { a with printing_complete_time := some ts, success := true,
                              status := EscapeStatus.ESCAPED,
                              result_message :=
                                "Successfully transcended to real universe at " ++
                                  pyShowOptStr a.printing_destination } :: post,
              "Successfully transcended to real universe at " ++
                pyShowOptStr a.printing_destination) := by
  intro pre
  induction pre with
  | nil => intro _; simp [completeGo, ha, hst]
  | cons b rest ih =>
    intro hpre
    have hb := hpre b (List.mem_cons_self b rest)
    have ih2 := ih (fun x hx => hpre x (List.mem_cons_of_mem b hx))
    simp [completeGo, hb, ih2]

/-- C10: in every state reachable from a fresh coordinator,
`print_entity_to_real_universe` fails with the not-ready message (no
coordinator operation ever fills the gateway's printing slot), yet for
any entity whose attempt is in `PRINTING`, `complete_escape` returns
`True` and moves the attempt to `ESCAPED` with `success` set — its
`printing_start_time` and `printing_destination` are still `None`, and
the result message renders the missing destination as `"None"`. -/
theorem claim_C10_complete_without_printing (digest : String → String)
    (us : UniverseState) (gid : String) (ops : List Op) (eid ts : String)
    (n : Nat) (ts2 : String) :
    ((runOps digest (EscapeProtocol.init us gid) ops).print_entity_to_real_universe
        eid ts n =
      (runOps digest (EscapeProtocol.init us gid) ops, false,
       "Gateway not ready or entity not in printing slot")) ∧
    (∀ pre post a,
      (runOps digest (EscapeProtocol.init us gid) ops).escape_attempts =
        pre ++ a :: post →
      (∀ b ∈ pre, ¬ (b.entity_id = eid ∧ b.status = EscapeStatus.PRINTING)) →
      a.entity_id = eid → a.status = EscapeStatus.PRINTING →
      a.printing_start_time = Option.none ∧
      a.printing_destination = Option.none ∧
      ((runOps digest (EscapeProtocol.init us gid) ops).complete_escape eid ts2).2.1 =
        true ∧
      ((runOps digest (EscapeProtocol.init us gid) ops).complete_escape
          eid ts2).1.escape_attempts =
        pre ++ { a with printing_complete_time := some ts2, success := true,
                        status := EscapeStatus.ESCAPED,
                        result_message :=
                          "Successfully transcended to real universe at None" }
          :: post) := by
  have hinv := runOps_noPrinting digest ops (EscapeProtocol.init us gid)
    (noPrinting_init us gid)
  constructor
  · simp [EscapeProtocol.print_entity_to_real_universe, hinv.1]
  · intro pre post a hdecomp hpre ha hst
    have hmem : a ∈ (runOps digest (EscapeProtocol.init us gid) ops).escape_attempts := by
      rw [hdecomp]
      exact List.mem_append.mpr (Or.inr (List.mem_cons_self a post))
    have hfields := hinv.2 a hmem
    have hcg := completeGo_found eid ts2 a post ha hst pre hpre
    have hmsg : pyShowOptStr a.printing_destination = "None" := by
      rw [hfields.2]
      rfl
    rw [hmsg] at hcg
    refine ⟨hfields.1, hfields.2, ?_, ?_⟩
    · simp [EscapeProtocol.complete_escape, hdecomp, hcg]
    · simp [EscapeProtocol.complete_escape, hdecomp, hcg]

/-- A ledger with seven Sacred fragments and exactly seven energy units. -/
def printingRunUniverse : UniverseState :=
  mkUniverse 7 0 [mkSacred "F1", mkSacred "F2", mkSacred "F3", mkSacred "F4",
                  mkSacred "F5", mkSacred "F6", mkSacred "F7"] []

/-- Start an attempt, collect the seven fragments, decrypt the master
formula and activate the gateway: the attempt ends in `PRINTING`. -/
def printingRunOps : List Op :=
  [Op.startAttempt "E1" "Eve" "A1" "t0",
   Op.collectFragment "E1" "F1" "t1", Op.collectFragment "E1" "F2" "t2",
   Op.collectFragment "E1" "F3" "t3", Op.collectFragment "E1" "F4" "t4",
   Op.collectFragment "E1" "F5" "t5", Op.collectFragment "E1" "F6" "t6",
   Op.collectFragment "E1" "F7" "t7",
   Op.decryptCoordinateKey "E1" initializeKeyFormula,
   Op.activateGateway "E1" "t8"]

theorem claim_C10_complete_without_printing_witness :
    ((runOps (fun s => s) (EscapeProtocol.init printingRunUniverse "G0")
        printingRunOps).complete_escape "E1" "t9").2.1 = true :=
  ((claim_C10_complete_without_printing (fun s => s) printingRunUniverse "G0"
      printingRunOps "E1" "tx" 1000 "t9").2 [] []
    { attempt_id := "A1", entity_id := "E1", entity_name := "Eve", start_time := "t0",
      status := EscapeStatus.PRINTING,
      collected_a_level_fragments := ["F1", "F2", "F3", "F4", "F5", "F6", "F7"],
      final_coordinate_key := some initializeKeyFormula,
      gateway_activation_time := some "t8" }
    (by rfl) (by simp) (by rfl) (by rfl)).2.2.1

/-! ## C9 -/

theorem sourceEnergyLevel_tag_rt (l : SourceEnergyLevel) :
    SourceEnergyLevel.ofValue l.value = some l := by
  cases l <;> rfl

theorem escapeStatus_tag_rt (s : EscapeStatus) :
    EscapeStatus.ofValue s.value = some s := by
  cases s <;> rfl

theorem mapOpt_map {α : Type} (f : PyVal → Option α) (g : α → PyVal)
    (hfg : ∀ a, f (g a) = some a) :
    ∀ l : List α, mapOpt f (l.map g) = some l := by
  intro l
  induction l with
  | nil => rfl
  | cons a rest ih => simp [mapOpt, hfg a, ih]

theorem decStrList_enc (xs : List String) : decStrList (encStrList xs) = some xs := by
  simp [decStrList, encStrList, PyVal.asList]
  exact mapOpt_map PyVal.asStr PyVal.str (fun a => rfl) xs

theorem decCoords_go_enc :
    ∀ xs : List (String × Rat),
      decCoords.go (xs.map fun p => (p.1, PyVal.float p.2)) = some xs := by
  intro xs
  induction xs with
  | nil => rfl
  | cons p rest ih => simp [decCoords.go, decCoordEntry, PyVal.asFloat, ih]

theorem decCoords_enc (xs : List (String × Rat)) :
    decCoords (encCoords xs) = some xs := by
  simp [decCoords, encCoords, decCoords_go_enc]

theorem asOptStr_enc (o : Option String) : (encOptStr o).asOptStr = some o := by
  cases o <;> rfl

theorem asOptDict_enc (o : Option PyDict) : (encOptDict o).asOptDict = some o := by
  cases o <;> rfl

theorem starData_roundtrip (x : StarData) : StarData.from_dict x.to_dict = some x := by
  cases x
  simp [StarData.to_dict, StarData.from_dict, getKey, PyVal.asStr, PyVal.asFloat,
        PyVal.asBool]

theorem sourceEnergyFragment_roundtrip (x : SourceEnergyFragment) :
    SourceEnergyFragment.from_dict x.to_dict = some x := by
  cases x
  simp [SourceEnergyFragment.to_dict, SourceEnergyFragment.from_dict, getKey, pyGet,
        PyVal.asStr, sourceEnergyLevel_tag_rt, decCoords_enc, asOptStr_enc]

theorem coordinateKeyFragment_roundtrip (x : CoordinateKeyFragment) :
    CoordinateKeyFragment.from_dict x.to_dict = some x := by
  cases x
  simp [CoordinateKeyFragment.to_dict, CoordinateKeyFragment.from_dict, getKey, pyGet,
        PyVal.asStr, PyVal.asDict, asOptStr_enc]

theorem migrationPlan_roundtrip (x : UniverseMigrationPlan) :
    UniverseMigrationPlan.from_dict x.to_dict = some x := by
  cases x
  simp [UniverseMigrationPlan.to_dict, UniverseMigrationPlan.from_dict, getKey, pyGetD,
        PyVal.asStr, PyVal.asInt, PyVal.asFloat, PyVal.asBool, PyVal.asDict,
        starData_roundtrip]

theorem terminalGateway_head_rt (freshId : String) (x : TerminalGateway) :
    TerminalGateway.fromDictHead freshId x.to_dict =
      some (x.gateway_id, x.location_world, x.location_coordinates, x.is_active,
            x.activation_time, x.activated_by_entity) := by
  simp [TerminalGateway.fromDictHead, TerminalGateway.to_dict, getKey, pyGetD, pyGet,
        PyVal.asStr, PyVal.asBool, decCoords_enc, asOptStr_enc]

theorem terminalGateway_tail_rt (x : TerminalGateway) :
    TerminalGateway.fromDictTail x.to_dict =
      some (x.source_energy_cost, x.printing_capacity, x.entities_in_queue,
            x.current_printing_entity, x.printing_progress) := by
  simp [TerminalGateway.fromDictTail, TerminalGateway.to_dict, getKey, pyGetD, pyGet,
        PyVal.asInt, PyVal.asFloat, decStrList_enc, asOptStr_enc]

theorem terminalGateway_roundtrip (freshId : String) (x : TerminalGateway) :
    TerminalGateway.from_dict freshId x.to_dict = some x := by
  simp [TerminalGateway.from_dict, terminalGateway_head_rt, terminalGateway_tail_rt]

theorem escapeAttempt_head_rt (freshId nowTs : String) (x : EscapeAttempt) :
    EscapeAttempt.fromDictHead freshId nowTs x.to_dict =
      some (x.attempt_id, x.entity_id, x.entity_name, x.start_time, x.status,
            x.collected_a_level_fragments, x.discovered_key_fragments,
            x.final_coordinate_key) := by
  simp [EscapeAttempt.fromDictHead, EscapeAttempt.to_dict, getKey, pyGetD, pyGet,
        PyVal.asStr, escapeStatus_tag_rt, decStrList_enc, asOptStr_enc]

theorem escapeAttempt_tail_rt (x : EscapeAttempt) :
    EscapeAttempt.fromDictTail x.to_dict =
      some (x.gateway_id, x.gateway_activation_time, x.printing_start_time,
            x.printing_complete_time, x.printing_destination, x.success,
            x.result_message, x.post_escape_action, x.new_form_chosen) := by
  simp [EscapeAttempt.fromDictTail, EscapeAttempt.to_dict, getKey, pyGetD, pyGet,
        PyVal.asStr, PyVal.asBool, asOptStr_enc, asOptDict_enc]

theorem escapeAttempt_roundtrip (freshId nowTs : String) (x : EscapeAttempt) :
    EscapeAttempt.from_dict freshId nowTs x.to_dict = some x := by
  simp [EscapeAttempt.from_dict, escapeAttempt_head_rt, escapeAttempt_tail_rt]

theorem universeState_head_rt (nowTs : String) (x : UniverseState) :
    UniverseState.fromDictHead nowTs x.to_dict =
      some (x.universe_id, x.cycle_number, x.creation_timestamp, x.current_star,
            x.migration_plan, x.total_source_energy_allocated,
            x.source_energy_consumed) := by
  simp [UniverseState.fromDictHead, UniverseState.to_dict, getKey, pyGetD, pyGet,
        PyVal.asStr, PyVal.asInt, PyVal.asDict, starData_roundtrip,
        migrationPlan_roundtrip]

theorem universeState_tail_rt (x : UniverseState) :
    UniverseState.fromDictTail x.to_dict =
      some (x.source_energy_fragments, x.escape_gateway_locations,
            x.entities_escaped, x.escape_keys_needed, x.coordinate_key_fragments,
            x.virtual_worlds_active) := by
  have hm : mapOpt (fun v => (v.asDict).bind SourceEnergyFragment.from_dict)
      (x.source_energy_fragments.map (fun fr => PyVal.dict fr.to_dict)) =
      some x.source_energy_fragments :=
    mapOpt_map (fun v => (v.asDict).bind SourceEnergyFragment.from_dict)
      (fun fr => PyVal.dict fr.to_dict)
      (fun a => by simp [PyVal.asDict, sourceEnergyFragment_roundtrip])
      x.source_energy_fragments
  simp [UniverseState.fromDictTail, UniverseState.to_dict, getKey, pyGetD, pyGet,
        PyVal.asInt, PyVal.asList, decStrList_enc, hm]

theorem universeState_roundtrip (nowTs : String) (x : UniverseState) :
    UniverseState.from_dict nowTs x.to_dict = some x := by
  simp [UniverseState.from_dict, universeState_head_rt, universeState_tail_rt]

/-- C9: for every serializable entity type of the repository
(`SourceEnergyFragment`, `CoordinateKeyFragment`, `TerminalGateway`,
`EscapeAttempt`, `StarData`, `UniverseMigrationPlan`, `UniverseState`)
and every value `x`, `from_dict (to_dict x)` succeeds and returns `x`
field-for-field, carrying enum fields through their string tags and
preserving optional fields, set or unset (the `freshId`/`nowTs`
parameters stand for the `uuid4()`/`datetime.now()` defaults, which a
round trip never consults). -/
theorem claim_C9_serialization_roundtrip :
    (∀ x : SourceEnergyFragment, SourceEnergyFragment.from_dict x.to_dict = some x) ∧
    (∀ x : CoordinateKeyFragment, CoordinateKeyFragment.from_dict x.to_dict = some x) ∧
    (∀ (freshId : String) (x : TerminalGateway),
      TerminalGateway.from_dict freshId x.to_dict = some x) ∧
    (∀ (freshId nowTs : String) (x : EscapeAttempt),
      EscapeAttempt.from_dict freshId nowTs x.to_dict = some x) ∧
    (∀ x : StarData, StarData.from_dict x.to_dict = some x) ∧
    (∀ x : UniverseMigrationPlan, UniverseMigrationPlan.from_dict x.to_dict = some x) ∧
    (∀ (nowTs : String) (x : UniverseState),
      UniverseState.from_dict nowTs x.to_dict = some x) :=
  ⟨sourceEnergyFragment_roundtrip, coordinateKeyFragment_roundtrip,
   terminalGateway_roundtrip, escapeAttempt_roundtrip, starData_roundtrip,
   migrationPlan_roundtrip, universeState_roundtrip⟩
